import Mathlib

/-!
# Cargill Virtual Line — slot allocation engine, shallow embedding

This file embeds the slot/hold/reservation engine of `src/index.js` (the
canonical ESM backend) in Lean 4 and proves the specification claims about
it.  SQLite tables become Lean lists of structures (list order models rowid
order), `CURRENT_TIMESTAMP` becomes an explicit `now : Nat` parameter
(seconds), `crypto.randomUUID()` / `Math.random()` become explicit input
parameters, and each Express handler becomes a pure function from input and
database state to (result, database state).
-/

namespace CVL

/-- Rider/vendor details supplied in a request body.  `none` models a JS
`undefined`/`null` field. -/
structure Details where
  driver_name : Option String := none
  license_plate : Option String := none
  vendor_name : Option String := none
  farm_or_ticket : Option String := none
  est_amount : Option Int := none
  est_unit : Option String := none
  driver_phone : Option String := none
deriving Repr, DecidableEq

/-- One row of the `time_slots` table. -/
structure Slot where
  id : Nat
  site_id : Nat
  date : String
  slot_time : String
  is_workin : Nat := 0
  reserved_truck_id : Option Nat := none
  reserved_at : Option Nat := none
  hold_token : Option String := none
  hold_expires_at : Option Nat := none
  disabled : Nat := 0
deriving Repr, DecidableEq

/-- One row of the `slot_reservations` table. -/
structure Reservation where
  id : Nat
  site_id : Nat
  date : String
  slot_time : String
  driver_name : Option String := none
  license_plate : Option String := none
  vendor_name : Option String := none
  farm_or_ticket : Option String := none
  est_amount : Option Int := none
  est_unit : Option String := none
  driver_phone : Option String := none
  queue_code : String
  status : String := "reserved"
deriving Repr, DecidableEq

/-- One row of the `site_settings` table. -/
structure SiteSetting where
  site_id : Nat
  date : String
  loads_target : Nat
  open_time : String
  close_time : String
  workins_per_hour : Nat := 0
deriving Repr, DecidableEq

/-- The SQLite database.  Lists model tables in rowid order; the `next…Id`
counters model the `AUTOINCREMENT` sequences (starting at 1). -/
structure DB where
  slots : List Slot := []
  reservations : List Reservation := []
  settings : List SiteSetting := []
  nextSlotId : Nat := 1
  nextResId : Nat := 1
deriving Repr, DecidableEq

/-- JS truthiness of a nullable integer column: `null` and `0` are falsy. -/
def truthyId : Option Nat → Bool
  | none => false
  | some n => n != 0

/-- `WHERE site_id=? AND date=? AND slot_time=?` (note: `is_workin` is not
part of this key in the source queries). -/
def slotKeyMatch (site : Nat) (date time : String) (s : Slot) : Bool :=
  s.site_id == site && s.date == date && s.slot_time == time

/-- `SELECT … FROM time_slots WHERE site_id=? AND date=? AND slot_time=?`
(first row in rowid order). -/
def findSlot (db : DB) (site : Nat) (date time : String) : Option Slot :=
  db.slots.find? (slotKeyMatch site date time)

/-- `SELECT * FROM slot_reservations WHERE id=?`. -/
def findRes (db : DB) (rid : Nat) : Option Reservation :=
  db.reservations.find? (fun r => r.id == rid)

/-- `String(Math.floor(1000 + Math.random()*9000))` — the 4-digit queue
(probe) code; the random draw is modelled by the `rand` input. -/
def fourDigitNat (rand : Nat) : Nat := 1000 + rand % 9000

def fourDigit (rand : Nat) : String := toString (fourDigitNat rand)

/-- `p || dflt` on a string-valued JS expression (empty string is falsy). -/
def jsOr (o : Option String) (dflt : String) : String :=
  match o with
  | none => dflt
  | some s => if s == "" then dflt else s

/-- `v || null` for string fields (empty string collapses to `null`). -/
def jsOrNull (o : Option String) : Option String :=
  match o with
  | none => none
  | some s => if s == "" then none else some s

/-- `v || null` for numeric fields (`0` collapses to `null`). -/
def jsOrNullInt (o : Option Int) : Option Int :=
  match o with
  | none => none
  | some n => if n == 0 then none else some n

/-- `normPhone`: strip non-digits, then accept `ddddddddddd` (10 digits,
prefixed `+1`) or `1dddddddddd` (11 digits starting with `1`, prefixed `+`).
(The source's third pattern `^\+1\d{10}$` can never match a digit-only
string and is dead code.) -/
def normPhone (p : String) : Option String :=
  let d := String.mk (p.toList.filter Char.isDigit)
  if d.length == 10 then some ("+1" ++ d)
  else if d.length == 11 && d.toList.head? == some '1' then some ("+" ++ d)
  else none

/-- `normPhone(driver_phone) || null` where `driver_phone` may be absent. -/
def normPhoneOpt (p : Option String) : Option String :=
  normPhone (p.getD "")

/-- `String.prototype.split(sep)` at character level (structural recursion
so that concrete inputs evaluate inside the kernel). -/
def splitOnChar (c : Char) : List Char → List (List Char)
  | [] => [[]]
  | x :: xs =>
    let rest := splitOnChar c xs
    if x == c then [] :: rest
    else
      match rest with
      | r :: rs => (x :: r) :: rs
      | [] => [[x]]

/-- JS unary `+` on a digit string. -/
def parseNatDigits (cs : List Char) : Nat :=
  cs.foldl (fun acc c => acc * 10 + (c.toNat - 48)) 0

/-- `toMin`: `const [h,m]=String(hhmm).split(':').map(n=>+n); h*60+m`.
Inputs reaching this helper are pre-validated `HH:MM` strings; on junk the
JS computes `NaN` (modelled loosely, never relied on). -/
def toMin (s : String) : Nat :=
  match splitOnChar ':' s.toList with
  | h :: m :: _ => parseNatDigits h * 60 + parseNatDigits m
  | _ => 0

/-- `String(n).padStart(2,'0')`. -/
def pad2 (n : Nat) : String := if n < 10 then "0" ++ toString n else toString n

/-- `toHHMM`. -/
def toHHMM (mins : Nat) : String := pad2 (mins / 60) ++ ":" ++ pad2 (mins % 60)

/-- The TTL stamped by `datetime('now','+120 seconds')`. -/
def holdTTL : Nat := 120

/-- `expireHolds()` applied to one row: clear the hold when
`hold_expires_at IS NOT NULL AND hold_expires_at < CURRENT_TIMESTAMP`. -/
def expireHoldsSlot (now : Nat) (s : Slot) : Slot :=
  match s.hold_expires_at with
  | some e => if e < now then { s with hold_token := none, hold_expires_at := none } else s
  | none => s

/-- `expireHolds()` — the lazy sweep over the whole `time_slots` table. -/
def expireHolds (now : Nat) (db : DB) : DB :=
  { db with slots := db.slots.map (expireHoldsSlot now) }

/-- `row.hold_expires_at && new Date(row.hold_expires_at) > new Date()` —
the slot carries a hold whose expiry is strictly in the future. -/
def activeHold (now : Nat) (s : Slot) : Bool :=
  match s.hold_expires_at with
  | some e => now < e
  | none => false

/-! ## POST /api/slots/hold -/

inductive HoldResult where
  | badRequest
  | notFound
  | conflict (msg : String)
  | ok (hold_token : String) (expires_at : Nat)
deriving Repr, DecidableEq

/-- The `UPDATE time_slots SET hold_token=?, hold_expires_at=
datetime('now','+120 seconds') WHERE id=?` statement. -/
def grantHold (now : Nat) (token : String) (slotId : Nat) (db : DB) : DB :=
  { db with slots := db.slots.map (fun s =>
      if s.id == slotId then
        { s with hold_token := some token, hold_expires_at := some (now + holdTTL) }
      else s) }

/-- `POST /api/slots/hold`.  `token` models `crypto.randomUUID()`.  The
handler sweeps expired holds first, then validates the body, then looks the
slot up by (site_id, date, slot_time) and rejects disabled / reserved /
actively-held rows before stamping the hold. -/
def holdOp (now : Nat) (token : String) (site : Nat) (date time : String) (db : DB) :
    HoldResult × DB :=
  let db := expireHolds now db
  if site == 0 || date == "" || time == "" then (.badRequest, db)
  else
    match findSlot db site date time with
    | none => (.notFound, db)
    | some row =>
      if row.disabled != 0 then (.conflict "slot disabled", db)
      else if truthyId row.reserved_truck_id then (.conflict "slot reserved", db)
      else if activeHold now row then (.conflict "slot on hold", db)
      else (.ok token (now + holdTTL), grantHold now token row.id db)

/-! ## POST /api/slots/confirm -/

inductive ConfirmResult where
  | badRequest
  | gone
  | ok (reservation_id : Nat) (queue_code : String)
deriving Repr, DecidableEq

/-- The row inserted into `slot_reservations` by confirm / probe-upsert /
admin-reserve (they all insert the same column list, with JS `|| null`
coercions on the detail fields and `(est_unit || 'BUSHELS').toUpperCase()`). -/
def mkReservation (rid : Nat) (site : Nat) (date time : String) (d : Details)
    (code : String) : Reservation :=
  { id := rid, site_id := site, date := date, slot_time := time,
    driver_name := jsOrNull d.driver_name,
    license_plate := jsOrNull d.license_plate,
    vendor_name := jsOrNull d.vendor_name,
    farm_or_ticket := jsOrNull d.farm_or_ticket,
    est_amount := jsOrNullInt d.est_amount,
    est_unit := some ((jsOr d.est_unit "BUSHELS").toUpper),
    driver_phone := normPhoneOpt d.driver_phone,
    queue_code := code, status := "reserved" }

/-- `WHERE hold_token=? AND hold_expires_at > CURRENT_TIMESTAMP`. -/
def confirmQuery (now : Nat) (tok : String) (s : Slot) : Bool :=
  s.hold_token == some tok && activeHold now s

/-- `POST /api/slots/confirm`.  `rand` models the `Math.random()` draw
behind the 4-digit queue code. -/
def confirmOp (now rand : Nat) (tok : String) (d : Details) (db : DB) :
    ConfirmResult × DB :=
  let db := expireHolds now db
  if tok == "" then (.badRequest, db)
  else
    match db.slots.find? (confirmQuery now tok) with
    | none => (.gone, db)
    | some slot =>
      let probe := fourDigit rand
      let rid := db.nextResId
      let resv := mkReservation rid slot.site_id slot.date slot.slot_time d probe
      (.ok rid probe,
       { db with
         reservations := db.reservations ++ [resv],
         nextResId := rid + 1,
         slots := db.slots.map (fun s =>
           if s.id == slot.id then
             { s with reserved_truck_id := some rid, reserved_at := some now,
                      hold_token := none, hold_expires_at := none }
           else s) })

/-! ## POST /api/slots/cancel

The handler looks the reservation up, then runs
`DELETE FROM slot_reservations WHERE id=?` and
`UPDATE time_slots SET reserved_truck_id=NULL, reserved_at=NULL WHERE
site_id=? AND date=? AND slot_time=? AND reserved_truck_id=?` as two
separate auto-committed statements — unlike reassign and mass-cancel it
does **not** wrap them in `db.transaction`.  The two statements are
therefore modelled as two separate state transformers. -/

inductive CancelResult where
  | badRequest
  | notFound
  | ok (reservation_id : Nat) (queue_code : String)
deriving Repr, DecidableEq

/-- The conditional slot-freeing `UPDATE` used (with identical SQL) by
cancel, mass-cancel and the freeing half of reassign: it only clears a row
whose `reserved_truck_id` still equals the id of reservation `r`. -/
def freeSlotFor (r : Reservation) (s : Slot) : Slot :=
  if s.site_id == r.site_id && s.date == r.date && s.slot_time == r.slot_time
     && s.reserved_truck_id == some r.id
  then { s with reserved_truck_id := none, reserved_at := none }
  else s

/-- First statement of cancel: `DELETE FROM slot_reservations WHERE id=?`. -/
def cancelDeleteRes (rid : Nat) (db : DB) : DB :=
  { db with reservations := db.reservations.filter (fun r => r.id != rid) }

/-- Second statement of cancel: the conditional slot-freeing `UPDATE`. -/
def cancelClearSlot (r : Reservation) (db : DB) : DB :=
  { db with slots := db.slots.map (freeSlotFor r) }

/-- `POST /api/slots/cancel` (both statements executed, i.e. no crash in
between). -/
def cancelOp (rid : Nat) (db : DB) : CancelResult × DB :=
  if rid == 0 then (.badRequest, db)
  else
    match findRes db rid with
    | none => (.notFound, db)
    | some r => (.ok rid r.queue_code, cancelClearSlot r (cancelDeleteRes rid db))

/-! ## POST /api/slots/reassign -/

inductive ReassignResult where
  | badRequest
  | notFound
  | conflict
  | error
  | ok (reservation_id : Nat) (to_slot_time : String) (queue_code : String)
deriving Repr, DecidableEq

/-- `INSERT OR IGNORE INTO time_slots (site_id, date, slot_time, is_workin)
VALUES (?, ?, ?, 0)` — the row gets table defaults for every other column
and a fresh autoincrement id; ignored when a `(site,date,time,0)` row
already exists (the UNIQUE key includes `is_workin`). -/
def ensureSlot (site : Nat) (date time : String) (db : DB) : DB :=
  if db.slots.any (fun s => s.site_id == site && s.date == date
      && s.slot_time == time && s.is_workin == 0)
  then db
  else { db with
    slots := db.slots ++ [{ id := db.nextSlotId, site_id := site, date := date,
                            slot_time := time }],
    nextSlotId := db.nextSlotId + 1 }

/-- `POST /api/slots/reassign`.  The free-old / occupy-new / retime-the-
reservation writes run inside one `db.transaction`. -/
def reassignOp (now : Nat) (rid : Nat) (toTime : String) (db : DB) :
    ReassignResult × DB :=
  if rid == 0 || toTime == "" then (.badRequest, db)
  else
    match findRes db rid with
    | none => (.notFound, db)
    | some r =>
      let db1 := ensureSlot r.site_id r.date toTime db
      match findSlot db1 r.site_id r.date toTime with
      | none => (.error, db1)   -- unreachable: the row was just ensured
      | some tgt =>
        if truthyId tgt.reserved_truck_id then (.conflict, db1)
        else
          (.ok rid toTime r.queue_code,
           { db1 with
             slots := (db1.slots.map (freeSlotFor r)).map (fun s =>
               if s.id == tgt.id then
                 { s with reserved_truck_id := some rid, reserved_at := some now }
               else s),
             reservations := db1.reservations.map (fun x =>
               if x.id == rid then { x with slot_time := toTime } else x) })

/-! ## POST /api/admin/reserve (administrative direct-reserve)

The handler validates presence of (site_id, date, slot_time) and then —
with **no** slot lookup, no `disabled` check, no reserved check — inserts a
reservation and runs `UPDATE time_slots SET reserved_truck_id=?,
reserved_at=CURRENT_TIMESTAMP WHERE site_id=? AND date=? AND slot_time=?`
(unconditional over every row at that key; a no-op when no such row
exists).  Note it does not clear hold fields either. -/

inductive AdminReserveResult where
  | badRequest
  | ok (reservation_id : Nat) (queue_code : String)
deriving Repr, DecidableEq

/-- `POST /api/admin/reserve`.  `qc` is the optional caller-supplied
`queue_code` (`queue_code || <random 4-digit>` — empty string is falsy). -/
def adminReserveOp (now rand : Nat) (site : Nat) (date time : String)
    (d : Details) (qc : Option String) (db : DB) : AdminReserveResult × DB :=
  if site == 0 || date == "" || time == "" then (.badRequest, db)
  else
    let probe := jsOr qc (fourDigit rand)
    let rid := db.nextResId
    let resv := mkReservation rid site date time d probe
    (.ok rid probe,
     { db with
       reservations := db.reservations ++ [resv],
       nextResId := rid + 1,
       slots := db.slots.map (fun s =>
         if slotKeyMatch site date time s then
           { s with reserved_truck_id := some rid, reserved_at := some now }
         else s) })

/-! ## POST /api/admin/update-reservation -/

inductive UpdateResult where
  | badRequest
  | notFound
  | ok
deriving Repr, DecidableEq

/-- `POST /api/admin/update-reservation`: overwrites the seven detail
columns of the reservation row; `queue_code`, `status`, the slot binding
and the slot table itself are untouched. -/
def adminUpdateOp (rid : Nat) (d : Details) (db : DB) : UpdateResult × DB :=
  if rid == 0 then (.badRequest, db)
  else
    match findRes db rid with
    | none => (.notFound, db)
    | some _ =>
      (.ok,
       { db with reservations := db.reservations.map (fun r =>
           if r.id == rid then
             { r with driver_name := d.driver_name,
                      driver_phone := normPhoneOpt d.driver_phone,
                      license_plate := d.license_plate,
                      vendor_name := d.vendor_name,
                      farm_or_ticket := d.farm_or_ticket,
                      est_amount := d.est_amount,
                      est_unit := some ((jsOr d.est_unit "BUSHELS").toUpper) }
           else r) })

/-! ## POST /api/slots/probe-upsert -/

inductive ProbeUpsertResult where
  | badRequest
  | notFound
  | serverError
  | ok (reservation_id : Nat) (created updated : Bool) (queue_code : Option String)
deriving Repr, DecidableEq

/-- `POST /api/slots/probe-upsert`.  With a truthy `reservation_id` it is an
edit: the existing reservation's detail columns are overwritten (its
`queue_code` is read back unchanged) and every slot row at the key is
pointed at it.  Without one it is a create: it throws (→ HTTP 500, rolled
back) when the looked-up slot is already reserved, otherwise inserts a
reservation with a fresh 4-digit code and occupies the slot. -/
def probeUpsertOp (now rand : Nat) (site : Nat) (date time : String)
    (resvId : Option Nat) (d : Details) (db : DB) : ProbeUpsertResult × DB :=
  if site == 0 || date == "" || time == "" then (.badRequest, db)
  else
    match findSlot db site date time with
    | none => (.notFound, db)
    | some slot =>
      if truthyId resvId then
        let rid := resvId.getD 0
        match findRes db rid with
        | none => (.serverError, db)   -- throw inside the tx → rollback → 500
        | some prev =>
          (.ok rid false true (some prev.queue_code),
           { db with
             reservations := db.reservations.map (fun r =>
               if r.id == rid then
                 { r with driver_name := jsOrNull d.driver_name,
                          license_plate := jsOrNull d.license_plate,
                          vendor_name := jsOrNull d.vendor_name,
                          farm_or_ticket := jsOrNull d.farm_or_ticket,
                          est_amount := d.est_amount,
                          est_unit := some ((jsOr d.est_unit "BUSHELS").toUpper),
                          driver_phone := normPhoneOpt d.driver_phone }
               else r),
             slots := db.slots.map (fun s =>
               if slotKeyMatch site date time s then
                 { s with reserved_truck_id := some rid }
               else s) })
      else
        if truthyId slot.reserved_truck_id then (.serverError, db)  -- throw → 500
        else
          let code := fourDigit rand
          let rid := db.nextResId
          let resv := mkReservation rid site date time d code
          (.ok rid true false (some code),
           { db with
             reservations := db.reservations ++ [resv],
             nextResId := rid + 1,
             slots := db.slots.map (fun s =>
               if s.id == slot.id then
                 { s with reserved_truck_id := some rid, reserved_at := some now,
                          hold_token := none, hold_expires_at := none }
               else s) })

/-! ## POST /api/driver/manage/update (driver self-service edit) -/

/-- The optional patch fields of the driver self-service update: the outer
`Option` is JS `undefined` (field absent from the body, column not touched),
the inner value is what gets bound. -/
structure DriverPatch where
  driver_name : Option (Option String) := none
  license_plate : Option (Option String) := none
  vendor_name : Option (Option String) := none
  farm_or_ticket : Option (Option String) := none
  est_amount : Option (Option Int) := none
  est_unit : Option (Option String) := none
deriving Repr, DecidableEq

inductive DriverUpdateResult where
  | badRequest
  | notFound
  | forbidden
  | ok (updated : Nat)
deriving Repr, DecidableEq

/-- Apply the dynamically-built `SET` list of the driver update to a
reservation row.  Only fields present (`!== undefined`) in the body are
pushed; `queue_code` is never among them. -/
def applyDriverPatch (p : DriverPatch) (r : Reservation) : Reservation :=
  let r := match p.driver_name with
    | some v => { r with driver_name := jsOrNull v } | none => r
  let r := match p.license_plate with
    | some v => { r with license_plate := jsOrNull v } | none => r
  let r := match p.vendor_name with
    | some v => { r with vendor_name := jsOrNull v } | none => r
  let r := match p.farm_or_ticket with
    | some v => { r with farm_or_ticket := jsOrNull v } | none => r
  let r := match p.est_amount with
    | some v => { r with est_amount := v } | none => r
  match p.est_unit with
    | some v => { r with est_unit := some ((jsOr v "BUSHELS").toUpper) } | none => r

/-- Does the patch push at least one column (`setParts.length > 0`)? -/
def driverPatchNonempty (p : DriverPatch) : Bool :=
  p.driver_name.isSome || p.license_plate.isSome || p.vendor_name.isSome
    || p.farm_or_ticket.isSome || p.est_amount.isSome || p.est_unit.isSome

/-- Is `probe_code` a 4-digit string (`/^\d{4}$/`)? -/
def isFourDigits (s : String) : Bool :=
  s.length == 4 && s.toList.all Char.isDigit

/-- `POST /api/driver/manage/update`: both the normalized phone and the
4-digit probe code must match the reservation before any column is set. -/
def driverUpdateOp (rid : Nat) (phone probe_code : String) (p : DriverPatch)
    (db : DB) : DriverUpdateResult × DB :=
  if rid == 0 then (.badRequest, db)
  else
    match normPhone phone with
    | none => (.badRequest, db)
    | some phoneNorm =>
      if !isFourDigits probe_code then (.badRequest, db)
      else
        match findRes db rid with
        | none => (.notFound, db)
        | some row =>
          if !((row.driver_phone.getD "") == phoneNorm
              && (row.queue_code == probe_code)) then (.forbidden, db)
          else if !driverPatchNonempty p then (.ok 0, db)
          else
            (.ok 1,
             { db with reservations := db.reservations.map (fun r =>
                 if r.id == rid then applyDriverPatch p r else r) })

/-! ## POST /api/slots/mass-cancel -/

/-- One element of the response's `details.reservations` list. -/
structure CanceledInfo where
  id : Nat
  site_id : Nat
  date : String
  slot_time : String
  driver_phone : Option String
deriving Repr, DecidableEq

/-- One element of the response's `details.open_slots` list. -/
structure RemovedOpen where
  site_id : Nat
  date : String
  slot_time : String
deriving Repr, DecidableEq

/-- The JSON body of a successful mass-cancel response (`notified` is
notification bookkeeping, outside the store model). -/
structure MassCancelResp where
  canceled : Nat
  removed_open : Nat
  reservations : List CanceledInfo
  open_slots : List RemovedOpen
deriving Repr, DecidableEq

inductive MassCancelResult where
  | badRequest
  | ok (resp : MassCancelResp)
deriving Repr, DecidableEq

/-- One loop iteration over `reservation_ids`: silently `continue` when the
id resolves to no reservation, otherwise free the slot (conditional
`UPDATE`), delete the reservation, and append to the success list. -/
def massCancelResStep (st : DB × List CanceledInfo) (rid : Nat) :
    DB × List CanceledInfo :=
  let (db, acc) := st
  match findRes db rid with
  | none => (db, acc)
  | some r =>
    (cancelDeleteRes rid (cancelClearSlot r db),
     acc ++ [⟨rid, r.site_id, r.date, r.slot_time, r.driver_phone⟩])

/-- `DELETE FROM time_slots WHERE site_id=? AND date=? AND slot_time=? AND
reserved_truck_id IS NULL`, returning the change count. -/
def delOpen (site : Nat) (date time : String) (db : DB) : DB × Nat :=
  let gone := db.slots.filter (fun s => slotKeyMatch site date time s
      && s.reserved_truck_id == none)
  ({ db with slots := db.slots.filter (fun s => !(slotKeyMatch site date time s
      && s.reserved_truck_id == none)) },
   gone.length)

/-- One loop iteration over `slot_times`. -/
def massCancelTimeStep (site : Nat) (date : String)
    (st : DB × List RemovedOpen) (t : String) : DB × List RemovedOpen :=
  let (db, acc) := st
  let (db', n) := delOpen site date t db
  (db', if n > 0 then acc ++ [⟨site, date, t⟩] else acc)

/-- `POST /api/slots/mass-cancel`.  (`reservation_ids` entries failing
`Number.isInteger` are skipped; a `List Nat` models integer ids.)  The
whole loop runs in one `db.transaction`. -/
def massCancelOp (site : Nat) (date : String) (rids : List Nat)
    (slot_times : List String) (db : DB) : MassCancelResult × DB :=
  if site == 0 || date == "" then (.badRequest, db)
  else
    let (db1, affected) := rids.foldl massCancelResStep (db, [])
    let (db2, removed) := slot_times.foldl (massCancelTimeStep site date) (db1, [])
    (.ok ⟨affected.length, removed.length, affected, removed⟩, db2)

/-! ## Schedule math (shared by preview and publish) -/

/-- `const minInt = site_id === 2 ? 6 : 5;` — the per-site minimum
interval. -/
def minIntFor (site : Nat) : Nat := if site == 2 then 6 else 5

/-- `interval = Math.max(minInt, wantedInt > 0 ? wantedInt : computedInt)`
with `computedInt = Math.floor(span / Math.max(1, loads_target - 1))`. -/
def computeInterval (site startM endM target wantedInt : Nat) : Nat :=
  let computedInt := (endM - startM) / max 1 (target - 1)
  max (minIntFor site) (if wantedInt > 0 then wantedInt else computedInt)

/-- The generation loop, in minutes:
`for (i = 0; i < loads_target; i++) { t = start + i*interval;
 if (t >= start && t <= end) times.push(t); }`. -/
def genTimesMin (startM endM interval target : Nat) : List Nat :=
  (List.range target).filterMap (fun i =>
    let t := startM + i * interval
    if startM ≤ t && t ≤ endM then some t else none)

/-- Adding candidates one by one to the `disabledSet` (JS `Set` keeps
insertion order and ignores duplicates) while its size is below the
requested count — both disabling loops reduce to this. -/
def fillSet (want : Nat) : List String → List String → List String
  | acc, [] => acc
  | acc, t :: rest =>
    if acc.length < want then
      fillSet want (if acc.contains t then acc else acc ++ [t]) rest
    else acc

/-- The first disabling loop's candidates: indices `stride-1, 2*stride-1, …`
with `stride = Math.max(1, Math.round(times.length / want))`
(`Math.round(x) = ⌊x + 1/2⌋` for `x ≥ 0`). -/
def strideCandidates (times : List String) (want : Nat) : List String :=
  let stride := max 1 ((2 * times.length + want) / (2 * want))
  ((List.range times.length).filter (fun i => (i + 1) % stride == 0)).filterMap
    (fun i => times.get? i)

/-- The `disabledSet` computation: stride pass, then back-fill from the end
of the list while still short. -/
def disabledSetOf (times : List String) (want : Nat) : List String :=
  if want > 0 && times.length > 0 then
    fillSet want (fillSet want [] (strideCandidates times want)) times.reverse
  else []

/-- `/^\d{4}-\d{2}-\d{2}$/`. -/
def dateRe (s : String) : Bool :=
  match s.toList with
  | [a, b, c, d, e, f, g, h, i, j] =>
      a.isDigit && b.isDigit && c.isDigit && d.isDigit && e == '-'
        && f.isDigit && g.isDigit && h == '-' && i.isDigit && j.isDigit
  | _ => false

/-- `/^(?:[01]\d|2[0-3]):[0-5]\d$/`. -/
def hhmmRe (s : String) : Bool :=
  match s.toList with
  | [h1, h2, c, m1, m2] =>
      ((h1 == '0' || h1 == '1') && h2.isDigit
        || h1 == '2' && '0' ≤ h2 && h2 ≤ '3')
        && c == ':' && '0' ≤ m1 && m1 ≤ '5' && m2.isDigit
  | _ => false

/-! ## POST /api/sites/:id/slots/preview -/

structure PreviewItem where
  slot_time : String
  disabled : Nat
deriving Repr, DecidableEq

inductive PreviewResult where
  | badRequest (msg : String)
  | ok (interval_min : Nat) (items : List PreviewItem)
deriving Repr, DecidableEq

/-- `POST /api/sites/:id/slots/preview` — read-only: computes the interval,
the time list and the disabled marks.  (The handler checks field presence
and `close > open` but no format regexes.) -/
def previewOp (site : Nat) (date open_time close_time : String)
    (target wantDisabled wantedInt : Nat) : PreviewResult :=
  if site == 0 || date == "" || open_time == "" || close_time == ""
      || target == 0 then .badRequest "missing fields"
  else
    let startM := toMin open_time
    let endM := toMin close_time
    if !(startM < endM) then .badRequest "close must be after open"
    else
      let interval := computeInterval site startM endM target wantedInt
      let times := (genTimesMin startM endM interval target).map toHHMM
      let dset := disabledSetOf times wantDisabled
      .ok interval (times.map (fun t => ⟨t, if dset.contains t then 1 else 0⟩))

/-! ## POST /api/sites/:id/schedule (publish) -/

inductive PublishResult where
  | validationError (msg : String)
  | ok (interval_min generated disabled_count : Nat)
deriving Repr, DecidableEq

/-- The `INSERT … ON CONFLICT(site_id,date) DO UPDATE` on `site_settings`. -/
def upsertSetting (site : Nat) (date : String) (target : Nat)
    (open_time close_time : String) (db : DB) : DB :=
  if db.settings.any (fun st => st.site_id == site && st.date == date) then
    { db with settings := db.settings.map (fun st =>
        if st.site_id == site && st.date == date then
          { st with loads_target := target, open_time := open_time,
                    close_time := close_time, workins_per_hour := 0 }
        else st) }
  else
    { db with settings := db.settings
        ++ [⟨site, date, target, open_time, close_time, 0⟩] }

/-- One iteration of the publish insert loop:
`INSERT INTO time_slots (…) VALUES (?, ?, ?, 0, NULL, NULL, NULL, NULL, ?)
ON CONFLICT(site_id, date, slot_time, is_workin) DO UPDATE SET
disabled = excluded.disabled`. -/
def upsertSlot (site : Nat) (date time : String) (dis : Nat) (db : DB) : DB :=
  if db.slots.any (fun s => s.site_id == site && s.date == date
      && s.slot_time == time && s.is_workin == 0) then
    { db with slots := db.slots.map (fun s =>
        if s.site_id == site && s.date == date && s.slot_time == time
            && s.is_workin == 0 then { s with disabled := dis } else s) }
  else
    { db with
      slots := db.slots ++ [{ id := db.nextSlotId, site_id := site,
                              date := date, slot_time := time, disabled := dis }],
      nextSlotId := db.nextSlotId + 1 }

/-- The publish transaction body: upsert the day's settings, delete every
non-reserved slot of the site/day, clear every remaining hold of the
site/day, then upsert the generated rows. -/
def publishTx (site : Nat) (date : String) (target : Nat)
    (open_time close_time : String) (times : List String)
    (dset : List String) (db : DB) : DB :=
  let db := upsertSetting site date target open_time close_time db
  let db := { db with slots := db.slots.filter (fun s =>
      !(s.site_id == site && s.date == date
        && (s.reserved_truck_id == none || s.reserved_truck_id == some 0))) }
  let db := { db with slots := db.slots.map (fun s =>
      if s.site_id == site && s.date == date then
        { s with hold_token := none, hold_expires_at := none }
      else s) }
  times.foldl (fun acc t =>
    upsertSlot site date t (if dset.contains t then 1 else 0) acc) db

/-- `POST /api/sites/:id/schedule` — full validation chain, then the
transaction. -/
def publishOp (site : Nat) (date open_time close_time : String)
    (target disabled_loads wantedInt : Nat) (db : DB) : PublishResult × DB :=
  if site == 0 || date == "" || open_time == "" || close_time == ""
      || target == 0 then (.validationError "missing fields", db)
  else if !dateRe date then (.validationError "date must be YYYY-MM-DD", db)
  else if !(hhmmRe open_time && hhmmRe close_time) then
    (.validationError "open/close must be HH:MM", db)
  else if target < 1 then (.validationError "loads_target must be >= 1", db)
  else
    let startM := toMin open_time
    let endM := toMin close_time
    if !(startM < endM) then (.validationError "close must be after open", db)
    else
      let interval := computeInterval site startM endM target wantedInt
      let times := (genTimesMin startM endM interval target).map toHHMM
      let dset := disabledSetOf times disabled_loads
      (.ok interval times.length dset.length,
       publishTx site date target open_time close_time times dset db)

/-! ## Basic lemmas about the sweep, lookups and updates -/

theorem expireHoldsSlot_cases (now : Nat) (s : Slot) :
    expireHoldsSlot now s = s ∨
    expireHoldsSlot now s = { s with hold_token := none, hold_expires_at := none } := by
  obtain ⟨i, st, d, t, w, rt, ra, htok, hexp, dis⟩ := s
  cases hexp with
  | none => exact Or.inl rfl
  | some e =>
    by_cases h : e < now
    · exact Or.inr (by simp [expireHoldsSlot, h])
    · exact Or.inl (by simp [expireHoldsSlot, h])

theorem expireHoldsSlot_id (now : Nat) (s : Slot) :
    (expireHoldsSlot now s).id = s.id := by
  rcases expireHoldsSlot_cases now s with h | h <;> simp [h]

theorem expireHoldsSlot_key (site : Nat) (date time : String) (now : Nat) (s : Slot) :
    slotKeyMatch site date time (expireHoldsSlot now s) = slotKeyMatch site date time s := by
  rcases expireHoldsSlot_cases now s with h | h <;> simp [h, slotKeyMatch]

theorem expireHoldsSlot_disabled (now : Nat) (s : Slot) :
    (expireHoldsSlot now s).disabled = s.disabled := by
  rcases expireHoldsSlot_cases now s with h | h <;> simp [h]

theorem expireHoldsSlot_reserved (now : Nat) (s : Slot) :
    (expireHoldsSlot now s).reserved_truck_id = s.reserved_truck_id := by
  rcases expireHoldsSlot_cases now s with h | h <;> simp [h]

theorem activeHold_expireHoldsSlot (now : Nat) (s : Slot) :
    activeHold now (expireHoldsSlot now s) = activeHold now s := by
  unfold expireHoldsSlot
  cases hh : s.hold_expires_at with
  | none => rfl
  | some e =>
    by_cases h : e < now
    · simp only [h, if_true]
      unfold activeHold
      simp only [hh]
      have : ¬ now < e := by omega
      simp [this]
    · simp only [h, if_false]

/-- A slot-table update that does not touch the key columns commutes with
`findSlot`. -/
theorem findSlot_map (db : DB) (f : Slot → Slot) (site : Nat) (date time : String)
    (hf : ∀ s, slotKeyMatch site date time (f s) = slotKeyMatch site date time s) :
    findSlot { db with slots := db.slots.map f } site date time
      = (findSlot db site date time).map f := by
  unfold findSlot
  simp only []
  rw [List.find?_map]
  have h : slotKeyMatch site date time ∘ f = slotKeyMatch site date time := funext hf
  rw [h]

theorem findSlot_expireHolds (now : Nat) (db : DB) (site : Nat) (date time : String) :
    findSlot (expireHolds now db) site date time
      = (findSlot db site date time).map (expireHoldsSlot now) :=
  findSlot_map db _ site date time (expireHoldsSlot_key site date time now)

theorem findSlot_grantHold (now : Nat) (token : String) (slotId : Nat) (db : DB)
    (site : Nat) (date time : String) :
    findSlot (grantHold now token slotId db) site date time
      = (findSlot db site date time).map (fun s =>
          if s.id == slotId then
            { s with hold_token := some token, hold_expires_at := some (now + holdTTL) }
          else s) := by
  apply findSlot_map
  intro s
  by_cases h : s.id == slotId <;> simp [h, slotKeyMatch]

theorem truthyId_ne (o : Option Nat) (h : o ≠ none) (h0 : o ≠ some 0) :
    truthyId o = true := by
  cases o with
  | none => exact absurd rfl h
  | some n =>
    unfold truthyId
    simp only [bne_iff_ne, ne_eq, decide_eq_true_eq]
    intro hn
    exact h0 (by rw [hn])

theorem activeHold_false_of_le (now : Nat) (s : Slot)
    (h : ∀ e, s.hold_expires_at = some e → e ≤ now) : activeHold now s = false := by
  unfold activeHold
  cases hh : s.hold_expires_at with
  | none => rfl
  | some e =>
    have := h e hh
    simp only [decide_eq_false_iff_not]
    omega

theorem activeHold_true (now e : Nat) (s : Slot) (hh : s.hold_expires_at = some e)
    (hlt : now < e) : activeHold now s = true := by
  unfold activeHold
  rw [hh]
  simpa using hlt

/-- Successful hold: with the slot found, enabled, unreserved and not
actively held, the handler returns the token with expiry `now + 120` and
stamps the row. -/
theorem holdOp_success (now : Nat) (token : String) (site : Nat) (date time : String)
    (db : DB) (row : Slot)
    (hs : site ≠ 0) (hd : date ≠ "") (ht : time ≠ "")
    (hrow : findSlot db site date time = some row)
    (hdis : row.disabled = 0)
    (hres : truthyId row.reserved_truck_id = false)
    (hhold : activeHold now row = false) :
    holdOp now token site date time db =
      (.ok token (now + 120),
       grantHold now token row.id (expireHolds now db)) := by
  have h1 : findSlot (expireHolds now db) site date time
      = some (expireHoldsSlot now row) := by
    rw [findSlot_expireHolds, hrow]; rfl
  have hg : (site == 0 || date == "" || time == "") = false := by
    simp [hs, hd, ht]
  unfold holdOp
  simp only [h1, hg, Bool.false_eq_true, if_false,
    expireHoldsSlot_disabled, expireHoldsSlot_reserved,
    activeHold_expireHoldsSlot, expireHoldsSlot_id, hres, hhold]
  simp [hdis, holdTTL]

/-! ## C1 — hold contract -/

/-- **C1.**  For every hold request on (site, date, time): if no slot row
exists at that key the call returns NotFound; if the slot is disabled, or
already carries a reservation pointer, or carries a hold whose expiry is
still in the future, it returns Conflict; otherwise it stamps a fresh
opaque token (the `token` input, modelling `crypto.randomUUID()`) with
expiry exactly `now + 120` seconds and returns that token and expiry.
Consequently, two sequential hold calls on the same open, never-reserved
slot — the second arriving before the first hold's 120-second expiry
("rapid succession") — yield exactly one success followed by one Conflict.
(The hypothesis that no row stores `reserved_truck_id = 0` reflects the
schema: reservation ids are `AUTOINCREMENT` values starting at 1.) -/
theorem C1_hold_contract :
    (∀ (now : Nat) (token : String) (site : Nat) (date time : String) (db : DB),
      site ≠ 0 → date ≠ "" → time ≠ "" →
      (∀ s ∈ db.slots, s.reserved_truck_id ≠ some 0) →
      (findSlot db site date time = none →
        holdOp now token site date time db = (.notFound, expireHolds now db)) ∧
      (∀ row, findSlot db site date time = some row →
        ((row.disabled ≠ 0 ∨ row.reserved_truck_id ≠ none ∨
            (∃ e, row.hold_expires_at = some e ∧ now < e)) →
          ∃ msg, holdOp now token site date time db
            = (.conflict msg, expireHolds now db)) ∧
        (row.disabled = 0 → row.reserved_truck_id = none →
          (∀ e, row.hold_expires_at = some e → e ≤ now) →
          (holdOp now token site date time db).1 = .ok token (now + 120) ∧
          findSlot (holdOp now token site date time db).2 site date time =
            some { expireHoldsSlot now row with hold_token := some token, hold_expires_at := some (now + 120) }))) ∧
    (∀ (now₁ now₂ : Nat) (tok₁ tok₂ : String) (site : Nat) (date time : String)
       (db : DB) (row : Slot),
      site ≠ 0 → date ≠ "" → time ≠ "" →
      now₂ < now₁ + 120 →
      findSlot db site date time = some row →
      row.disabled = 0 → row.reserved_truck_id = none →
      (∀ e, row.hold_expires_at = some e → e ≤ now₁) →
      (holdOp now₁ tok₁ site date time db).1 = .ok tok₁ (now₁ + 120) ∧
      ∃ msg, (holdOp now₂ tok₂ site date time
        (holdOp now₁ tok₁ site date time db).2).1 = .conflict msg) := by
  constructor
  · intro now token site date time db hs hd ht hwf
    have hg : (site == 0 || date == "" || time == "") = false := by
      simp [hs, hd, ht]
    constructor
    · intro hnone
      have h1 : findSlot (expireHolds now db) site date time = none := by
        rw [findSlot_expireHolds, hnone]; rfl
      unfold holdOp
      simp [h1, hg]
    · intro row hrow
      have h1 : findSlot (expireHolds now db) site date time
          = some (expireHoldsSlot now row) := by
        rw [findSlot_expireHolds, hrow]; rfl
      constructor
      · intro hcond
        unfold holdOp
        simp only [h1, hg, Bool.false_eq_true, if_false,
          expireHoldsSlot_disabled, expireHoldsSlot_reserved,
          activeHold_expireHoldsSlot, expireHoldsSlot_id]
        by_cases hdis : row.disabled = 0
        · by_cases hres : row.reserved_truck_id = none
          · rcases hcond with h | h | ⟨e, he, hlt⟩
            · exact absurd hdis h
            · exact absurd hres h
            · have hah : activeHold now row = true := activeHold_true now e row he hlt
              refine ⟨"slot on hold", ?_⟩
              simp [hdis, hres, truthyId, hah]
          · have htr : truthyId row.reserved_truck_id = true := by
              refine truthyId_ne _ hres ?_
              exact hwf row (List.mem_of_find?_eq_some hrow)
            refine ⟨"slot reserved", ?_⟩
            simp [hdis, htr]
        · exact ⟨"slot disabled", by simp [hdis]⟩
      · intro hdis hres hle
        have hsucc := holdOp_success now token site date time db row hs hd ht hrow
          hdis (by rw [hres]; rfl) (activeHold_false_of_le now row hle)
        refine ⟨by rw [hsucc], ?_⟩
        rw [hsucc]
        show findSlot (grantHold now token row.id (expireHolds now db)) site date time = _
        rw [findSlot_grantHold, findSlot_expireHolds, hrow]
        simp [expireHoldsSlot_id, holdTTL]
  · intro now₁ now₂ tok₁ tok₂ site date time db row hs hd ht hlt hrow hdis hres hle
    have hg : (site == 0 || date == "" || time == "") = false := by
      simp [hs, hd, ht]
    have hsucc := holdOp_success now₁ tok₁ site date time db row hs hd ht hrow
      hdis (by rw [hres]; rfl) (activeHold_false_of_le now₁ row hle)
    refine ⟨by rw [hsucc], ?_⟩
    rw [hsucc]
    have h2 : findSlot (grantHold now₁ tok₁ row.id (expireHolds now₁ db)) site date time
        = some { expireHoldsSlot now₁ row with hold_token := some tok₁, hold_expires_at := some (now₁ + 120) } := by
      rw [findSlot_grantHold, findSlot_expireHolds, hrow]
      simp [expireHoldsSlot_id, holdTTL]
    set row₂ : Slot := { expireHoldsSlot now₁ row with hold_token := some tok₁, hold_expires_at := some (now₁ + 120) } with hrow₂
    have h3 : findSlot (expireHolds now₂ (grantHold now₁ tok₁ row.id (expireHolds now₁ db)))
        site date time = some (expireHoldsSlot now₂ row₂) := by
      rw [findSlot_expireHolds, h2]; rfl
    have hdis₂ : (expireHoldsSlot now₂ row₂).disabled = 0 := by
      rw [expireHoldsSlot_disabled, hrow₂]
      show (expireHoldsSlot now₁ row).disabled = 0
      rw [expireHoldsSlot_disabled]; exact hdis
    have hres₂ : (expireHoldsSlot now₂ row₂).reserved_truck_id = none := by
      rw [expireHoldsSlot_reserved, hrow₂]
      show (expireHoldsSlot now₁ row).reserved_truck_id = none
      rw [expireHoldsSlot_reserved]; exact hres
    have hah₂ : activeHold now₂ (expireHoldsSlot now₂ row₂) = true := by
      rw [activeHold_expireHoldsSlot]
      exact activeHold_true now₂ (now₁ + 120) row₂ rfl hlt
    refine ⟨"slot on hold", ?_⟩
    unfold holdOp
    simp [h3, hg, hdis₂, hres₂, hah₂, truthyId]

/-- Example database for the C1 witness: one open, never-reserved slot. -/
def exDbC1 : DB :=
  { slots := [{ id := 1, site_id := 1, date := "2025-01-10", slot_time := "08:00" }] }

/-- Witness for C1: a concrete open slot, held at `now = 1000` and held
again at `now = 1010`, yields one success then one Conflict. -/
theorem C1_hold_contract_witness :
    ((1 : Nat) ≠ 0 ∧ ("2025-01-10" : String) ≠ "" ∧ ("08:00" : String) ≠ ""
      ∧ (1010 : Nat) < 1000 + 120
      ∧ findSlot exDbC1 1 "2025-01-10" "08:00"
          = some { id := 1, site_id := 1, date := "2025-01-10", slot_time := "08:00" }) ∧
    ((holdOp 1000 "tokA" 1 "2025-01-10" "08:00" exDbC1).1 = .ok "tokA" (1000 + 120) ∧
      ∃ msg, (holdOp 1010 "tokB" 1 "2025-01-10" "08:00"
        (holdOp 1000 "tokA" 1 "2025-01-10" "08:00" exDbC1).2).1 = .conflict msg) :=
  ⟨⟨by decide, by decide, by decide, by decide, by decide⟩,
   C1_hold_contract.2 1000 1010 "tokA" "tokB" 1 "2025-01-10" "08:00" exDbC1
     { id := 1, site_id := 1, date := "2025-01-10", slot_time := "08:00" }
     (by decide) (by decide) (by decide) (by decide) (by decide) (by decide)
     (by decide) (by intro e he; cases he)⟩

/-! ## C2 — confirm contract -/

theorem confirmQuery_expireHoldsSlot (now : Nat) (tok : String) (s : Slot) :
    confirmQuery now tok (expireHoldsSlot now s) = confirmQuery now tok s := by
  obtain ⟨i, st, d, t, w, rt, ra, htok, hexp, dis⟩ := s
  cases hexp with
  | none => rfl
  | some e =>
    by_cases h : e < now
    · have h2 : ¬ now < e := by omega
      simp [expireHoldsSlot, confirmQuery, activeHold, h, h2]
    · simp [expireHoldsSlot, h]

theorem confirmFind_expireHolds (now : Nat) (tok : String) (db : DB) :
    (expireHolds now db).slots.find? (confirmQuery now tok)
      = (db.slots.find? (confirmQuery now tok)).map (expireHoldsSlot now) := by
  unfold expireHolds
  simp only []
  rw [List.find?_map]
  have h : confirmQuery now tok ∘ expireHoldsSlot now = confirmQuery now tok :=
    funext (confirmQuery_expireHoldsSlot now tok)
  rw [h]

/-- **C2.**  For every `confirm(hold_token, details)` call: if, after
sweeping expired holds, no slot carries that token with an unexpired
expiry, the call returns Gone; otherwise it creates a reservation for the
held slot carrying the supplied details and a freshly generated random
4-digit queue code, sets the slot's reservation pointer to the new
reservation, clears the slot's hold fields, and returns the reservation id
and the queue code.  In particular (second conjunct), confirming at
`now + 130` a hold granted at `now` with the 120-second TTL returns Gone. -/
theorem C2_confirm_contract :
    (∀ (now rand : Nat) (tok : String) (d : Details) (db : DB),
      tok ≠ "" →
      ((∀ s ∈ db.slots, ¬(s.hold_token = some tok ∧
          ∃ e, s.hold_expires_at = some e ∧ now < e)) →
        confirmOp now rand tok d db = (.gone, expireHolds now db)) ∧
      (∀ slot, (expireHolds now db).slots.find? (confirmQuery now tok) = some slot →
        (confirmOp now rand tok d db).1 = .ok db.nextResId (fourDigit rand) ∧
        (∃ n, 1000 ≤ n ∧ n ≤ 9999 ∧ fourDigit rand = toString n) ∧
        mkReservation db.nextResId slot.site_id slot.date slot.slot_time d (fourDigit rand)
          ∈ (confirmOp now rand tok d db).2.reservations ∧
        (∃ s' ∈ (confirmOp now rand tok d db).2.slots,
          s'.id = slot.id ∧ s'.reserved_truck_id = some db.nextResId ∧
          s'.hold_token = none ∧ s'.hold_expires_at = none))) ∧
    (∀ (now₁ rand : Nat) (tok : String) (d : Details) (site : Nat)
       (date time : String) (db : DB) (row : Slot),
      site ≠ 0 → date ≠ "" → time ≠ "" → tok ≠ "" →
      (∀ s ∈ db.slots, s.hold_token ≠ some tok) →
      findSlot db site date time = some row →
      row.disabled = 0 → row.reserved_truck_id = none →
      (∀ e, row.hold_expires_at = some e → e ≤ now₁) →
      (holdOp now₁ tok site date time db).1 = .ok tok (now₁ + 120) ∧
      (confirmOp (now₁ + 130) rand tok d (holdOp now₁ tok site date time db).2).1
        = .gone) := by
  constructor
  · intro now rand tok d db htok
    have hg : (tok == "") = false := by simp [htok]
    constructor
    · intro hnone
      have h0 : db.slots.find? (confirmQuery now tok) = none := by
        rw [List.find?_eq_none]
        intro s hs hq
        unfold confirmQuery at hq
        simp only [Bool.and_eq_true, beq_iff_eq] at hq
        obtain ⟨h1, h2⟩ := hq
        refine hnone s hs ⟨h1, ?_⟩
        unfold activeHold at h2
        cases he : s.hold_expires_at with
        | none => rw [he] at h2; cases h2
        | some e =>
          rw [he] at h2
          simp only [decide_eq_true_eq] at h2
          exact ⟨e, rfl, h2⟩
      have h1 : (expireHolds now db).slots.find? (confirmQuery now tok) = none := by
        rw [confirmFind_expireHolds, h0]; rfl
      unfold confirmOp
      simp [h1, hg]
    · intro slot hfind
      unfold confirmOp
      simp only [hfind, hg, Bool.false_eq_true, if_false]
      refine ⟨rfl, ⟨fourDigitNat rand, ?_, ?_, rfl⟩, ?_, ?_⟩
      · unfold fourDigitNat; omega
      · unfold fourDigitNat; have := Nat.mod_lt rand (show 0 < 9000 by omega); omega
      · exact List.mem_append_right _ (List.mem_singleton.mpr rfl)
      · refine ⟨{ slot with reserved_truck_id := some (expireHolds now db).nextResId, reserved_at := some now, hold_token := none, hold_expires_at := none }, ?_, rfl, rfl, rfl, rfl⟩
        have hmem : slot ∈ (expireHolds now db).slots := List.mem_of_find?_eq_some hfind
        have : (slot.id == slot.id) = true := beq_self_eq_true _
        refine List.mem_map.mpr ⟨slot, hmem, ?_⟩
        rw [this]
        simp
  · intro now₁ rand tok d site date time db row hs hd ht htok hfresh hrow hdis hres hle
    have hsucc := holdOp_success now₁ tok site date time db row hs hd ht hrow
      hdis (by rw [hres]; rfl) (activeHold_false_of_le now₁ row hle)
    refine ⟨by rw [hsucc], ?_⟩
    rw [hsucc]
    have hg : (tok == "") = false := by simp [htok]
    have hnone : (grantHold now₁ tok row.id (expireHolds now₁ db)).slots.find?
        (confirmQuery (now₁ + 130) tok) = none := by
      rw [List.find?_eq_none]
      intro x hx
      unfold grantHold expireHolds at hx
      simp only [List.mem_map] at hx
      obtain ⟨s, hsmem, hxeq⟩ := hx
      obtain ⟨s0, hs0mem, hseq⟩ := hsmem
      subst hxeq hseq
      by_cases hid : ((expireHoldsSlot now₁ s0).id == row.id) = true
      · rw [if_pos hid]
        unfold confirmQuery activeHold
        simp only [Bool.and_eq_true, decide_eq_true_eq]
        rintro ⟨-, h2⟩
        simp only [holdTTL] at h2
        omega
      · rw [if_neg hid]
        unfold confirmQuery
        simp only [Bool.and_eq_true, beq_iff_eq]
        rintro ⟨h1, -⟩
        rcases expireHoldsSlot_cases now₁ s0 with hcase | hcase
        · rw [hcase] at h1
          exact hfresh s0 hs0mem h1
        · rw [hcase] at h1
          cases h1
    have h1 : (expireHolds (now₁ + 130)
        (grantHold now₁ tok row.id (expireHolds now₁ db))).slots.find?
        (confirmQuery (now₁ + 130) tok) = none := by
      rw [confirmFind_expireHolds, hnone]; rfl
    unfold confirmOp
    simp [h1, hg]

/-- Example database for the C2 witness: one open slot, held at
`now = 1000`, confirm attempted at `now = 1130`. -/
def exDbC2 : DB :=
  { slots := [{ id := 1, site_id := 1, date := "2025-01-10", slot_time := "08:00" }] }

/-- Witness for C2: confirming 130 seconds after a 120-second hold was
granted returns Gone. -/
theorem C2_confirm_contract_witness :
    ((1 : Nat) ≠ 0 ∧ ("2025-01-10" : String) ≠ "" ∧ ("08:00" : String) ≠ ""
      ∧ ("tokA" : String) ≠ "") ∧
    ((holdOp 1000 "tokA" 1 "2025-01-10" "08:00" exDbC2).1 = .ok "tokA" (1000 + 120) ∧
      (confirmOp (1000 + 130) 7 "tokA" {} (holdOp 1000 "tokA" 1 "2025-01-10" "08:00" exDbC2).2).1
        = .gone) :=
  ⟨⟨by decide, by decide, by decide, by decide⟩,
   C2_confirm_contract.2 1000 7 "tokA" {} 1 "2025-01-10" "08:00" exDbC2
     { id := 1, site_id := 1, date := "2025-01-10", slot_time := "08:00" }
     (by decide) (by decide) (by decide) (by decide)
     (by intro s hs; fin_cases hs; decide)
     (by decide) (by decide) (by decide) (by intro e he; cases he)⟩

/-! ## C3 — cancel is two auto-committed statements, not one transaction -/

/-- A database holding reservation 1 on slot (1, 2025-01-10, 08:00). -/
def exDbC3 : DB :=
  { slots := [{ id := 1, site_id := 1, date := "2025-01-10", slot_time := "08:00", reserved_truck_id := some 1, reserved_at := some 0 }],
    reservations := [{ id := 1, site_id := 1, date := "2025-01-10", slot_time := "08:00", queue_code := "1234" }],
    nextSlotId := 2, nextResId := 2 }

/-- **C3** (code bug).  The claim requires the reservation deletion and the
slot-pointer clear of cancel to be one atomic transaction, with no
observable state carrying one write without the other.  In `src/index.js`
the `DELETE FROM slot_reservations` and the conditional
`UPDATE time_slots … SET reserved_truck_id=NULL` of `POST /api/slots/cancel`
are two separate auto-committed statements with no enclosing
`db.transaction` (unlike reassign and mass-cancel, which do use one).  The
state after the first statement alone — the durable state if the process
stops between the two — has reservation 1 deleted while its slot still
carries `reserved_truck_id = 1`, exactly the forbidden intermediate.  The
NotFound half of the claim does hold (cancel of an unknown id returns
NotFound and mutates nothing), and with both statements executed the slot
is freed. -/
theorem C3_cancel_two_statements :
    (findRes (cancelDeleteRes 1 exDbC3) 1 = none ∧
      ∃ s ∈ (cancelDeleteRes 1 exDbC3).slots, s.reserved_truck_id = some 1) ∧
    cancelOp 2 exDbC3 = (.notFound, exDbC3) ∧
    cancelOp 1 exDbC3 =
      (.ok 1 "1234",
       { slots := [{ id := 1, site_id := 1, date := "2025-01-10", slot_time := "08:00" }],
         reservations := [], settings := [], nextSlotId := 2, nextResId := 2 }) := by
  refine ⟨⟨by decide, ⟨{ id := 1, site_id := 1, date := "2025-01-10", slot_time := "08:00", reserved_truck_id := some 1, reserved_at := some 0 }, by decide, by decide⟩⟩, by decide, by decide⟩

/-! ## C4 — reassign contract -/

theorem ensureSlot_mem (site : Nat) (date time : String) (db : DB) :
    ∀ s ∈ db.slots, s ∈ (ensureSlot site date time db).slots := by
  intro s hs
  unfold ensureSlot
  split
  · exact hs
  · exact List.mem_append_left _ hs

theorem ensureSlot_reservations (site : Nat) (date time : String) (db : DB) :
    (ensureSlot site date time db).reservations = db.reservations := by
  unfold ensureSlot
  split <;> rfl

theorem ensureSlot_exists (site : Nat) (date time : String) (db : DB) :
    ∃ s ∈ (ensureSlot site date time db).slots,
      s.site_id = site ∧ s.date = date ∧ s.slot_time = time := by
  unfold ensureSlot
  split
  case isTrue h =>
    simp only [List.any_eq_true] at h
    obtain ⟨s, hs, hcond⟩ := h
    simp only [Bool.and_eq_true, beq_iff_eq] at hcond
    exact ⟨s, hs, hcond.1.1.1, hcond.1.1.2, hcond.1.2⟩
  case isFalse h =>
    exact ⟨_, List.mem_append_right _ (List.mem_singleton.mpr rfl), rfl, rfl, rfl⟩

/-- **C4.**  For every reassign on an existing reservation: a slot row at
`new_time` is ensured (one exists in the post-state); if the target slot —
the row looked up at (site, date, new_time) after the ensure step — is
already reserved, the call fails with Conflict and leaves the original
reservation row and every pre-existing slot row unchanged (no partial
move); otherwise the call succeeds, the reservation's time field is set to
`new_time`, the target slot now carries the reservation pointer, and no
other slot at the reservation's old key still points at it — all inside
one `db.transaction`. -/
theorem C4_reassign_contract :
    ∀ (now rid : Nat) (toTime : String) (db : DB) (r : Reservation),
      rid ≠ 0 → toTime ≠ "" →
      findRes db rid = some r →
      ((∃ s ∈ (reassignOp now rid toTime db).2.slots,
          s.site_id = r.site_id ∧ s.date = r.date ∧ s.slot_time = toTime) ∧
       (∀ tgt, findSlot (ensureSlot r.site_id r.date toTime db) r.site_id r.date toTime
           = some tgt →
         (truthyId tgt.reserved_truck_id = true →
           (reassignOp now rid toTime db).1 = .conflict ∧
           (∀ s ∈ db.slots, s ∈ (reassignOp now rid toTime db).2.slots) ∧
           findRes (reassignOp now rid toTime db).2 rid = some r) ∧
         (truthyId tgt.reserved_truck_id = false →
           (reassignOp now rid toTime db).1 = .ok rid toTime r.queue_code ∧
           findRes (reassignOp now rid toTime db).2 rid = some { r with slot_time := toTime } ∧
           (∃ s' ∈ (reassignOp now rid toTime db).2.slots,
             s'.id = tgt.id ∧ s'.site_id = r.site_id ∧ s'.date = r.date ∧
             s'.slot_time = toTime ∧ s'.reserved_truck_id = some rid) ∧
           (∀ s' ∈ (reassignOp now rid toTime db).2.slots,
             s'.site_id = r.site_id → s'.date = r.date → s'.slot_time = r.slot_time →
             s'.id ≠ tgt.id → s'.reserved_truck_id ≠ some rid)))) := by
  intro now rid toTime db r hrid htime hres
  have hg : (rid == 0 || toTime == "") = false := by simp [hrid, htime]
  have hrideq : r.id = rid := by
    have := List.find?_some hres
    simpa using this
  unfold reassignOp
  rw [hg]
  simp only [Bool.false_eq_true, if_false, hres]
  constructor
  · -- slot ensured, in every branch
    cases htgt : findSlot (ensureSlot r.site_id r.date toTime db) r.site_id r.date toTime with
    | none =>
      -- impossible in fact, but the .error branch still returns the ensured state
      obtain ⟨s, hs, hkey⟩ := ensureSlot_exists r.site_id r.date toTime db
      exact ⟨s, by simp only [htgt]; exact hs, hkey⟩
    | some tgt =>
      by_cases htr : truthyId tgt.reserved_truck_id = true
      · obtain ⟨s, hs, hkey⟩ := ensureSlot_exists r.site_id r.date toTime db
        refine ⟨s, ?_, hkey⟩
        simp only [htgt, htr, if_true]
        exact hs
      · rw [Bool.not_eq_true] at htr
        have htgtmem : tgt ∈ (ensureSlot r.site_id r.date toTime db).slots :=
          List.mem_of_find?_eq_some htgt
        have hkey := List.find?_some htgt
        unfold slotKeyMatch at hkey
        simp only [Bool.and_eq_true, beq_iff_eq] at hkey
        obtain ⟨⟨hsite, hdate⟩, htime'⟩ := hkey
        refine ⟨{ tgt with reserved_truck_id := some rid, reserved_at := some now }, ?_, hsite, hdate, htime'⟩
        simp only [htgt, htr, Bool.false_eq_true, if_false]
        have h1 : freeSlotFor r tgt = tgt := by
          unfold freeSlotFor
          have : (tgt.reserved_truck_id == some r.id) = false := by
            cases ho : tgt.reserved_truck_id with
            | none => rfl
            | some n =>
              have : n = 0 := by
                unfold truthyId at htr
                rw [ho] at htr
                simpa using htr
              subst this
              simp [beq_iff_eq, hrideq ▸ hrid]
              omega
          simp [this]
        refine List.mem_map.mpr ⟨freeSlotFor r tgt, List.mem_map_of_mem _ htgtmem, ?_⟩
        rw [h1]
        simp
  · intro tgt htgt
    constructor
    · intro htr
      simp only [htgt, htr, if_true]
      exact ⟨by trivial, ensureSlot_mem r.site_id r.date toTime db,
        by unfold findRes; rw [ensureSlot_reservations]; exact hres⟩
    · intro htr
      simp only [htgt, htr, Bool.false_eq_true, if_false]
      have htgtmem : tgt ∈ (ensureSlot r.site_id r.date toTime db).slots :=
        List.mem_of_find?_eq_some htgt
      have hkey := List.find?_some htgt
      unfold slotKeyMatch at hkey
      simp only [Bool.and_eq_true, beq_iff_eq] at hkey
      obtain ⟨⟨hsite, hdate⟩, htime'⟩ := hkey
      refine ⟨by trivial, ?_, ?_, ?_⟩
      · -- reservation retimed
        unfold findRes
        simp only []
        rw [List.find?_map]
        have hfun : ((fun x => x.id == rid) ∘ fun x =>
            if x.id == rid then { x with slot_time := toTime } else x)
            = (fun (x : Reservation) => x.id == rid) := by
          funext x
          by_cases h : x.id = rid <;> simp [h]
        rw [hfun, ensureSlot_reservations]
        unfold findRes at hres
        rw [hres]
        simp [hrideq]
      · -- target occupied
        have h1 : freeSlotFor r tgt = tgt := by
          unfold freeSlotFor
          have : (tgt.reserved_truck_id == some r.id) = false := by
            cases ho : tgt.reserved_truck_id with
            | none => rfl
            | some n =>
              have : n = 0 := by
                unfold truthyId at htr
                rw [ho] at htr
                simpa using htr
              subst this
              simp [beq_iff_eq, hrideq ▸ hrid]
              omega
          simp [this]
        refine ⟨{ tgt with reserved_truck_id := some rid, reserved_at := some now }, ?_, rfl, hsite, hdate, htime', rfl⟩
        refine List.mem_map.mpr ⟨freeSlotFor r tgt, List.mem_map_of_mem _ htgtmem, ?_⟩
        rw [h1]
        simp
      · -- old slot freed
        intro s' hs' hsite' hdate' htime2 hid hptr
        simp only [List.mem_map] at hs'
        obtain ⟨s1, hs1, heq1⟩ := hs'
        obtain ⟨s0, hs0, heq0⟩ := hs1
        by_cases hocc : (s1.id == tgt.id) = true
        · rw [if_pos hocc] at heq1
          apply hid
          rw [← heq1]
          simpa using hocc
        · rw [if_neg (by simpa using hocc)] at heq1
          subst heq1
          by_cases hfree : (s0.site_id == r.site_id && s0.date == r.date
              && s0.slot_time == r.slot_time && s0.reserved_truck_id == some r.id) = true
          · have hf : freeSlotFor r s0 = { s0 with reserved_truck_id := none, reserved_at := none } := by
              unfold freeSlotFor
              rw [if_pos hfree]
            rw [hf] at heq0
            rw [← heq0] at hptr
            cases hptr
          · have hf : freeSlotFor r s0 = s0 := by
              unfold freeSlotFor
              rw [if_neg (by simpa using hfree)]
            rw [hf] at heq0
            subst heq0
            apply hfree
            simp only [Bool.and_eq_true, beq_iff_eq]
            exact ⟨⟨⟨hsite', hdate'⟩, htime2⟩, by rw [hptr, hrideq]⟩

/-- Example for the C4 witness: reservation 1 sits on slot (1, 2025-01-10,
08:00); slot 2 at 08:30 is free. -/
def exResC4 : Reservation :=
  { id := 1, site_id := 1, date := "2025-01-10", slot_time := "08:00", queue_code := "4321" }

def exDbC4 : DB :=
  { slots := [{ id := 1, site_id := 1, date := "2025-01-10", slot_time := "08:00", reserved_truck_id := some 1, reserved_at := some 0 },
              { id := 2, site_id := 1, date := "2025-01-10", slot_time := "08:30" }],
    reservations := [exResC4], nextSlotId := 3, nextResId := 2 }

def exTgtC4 : Slot := { id := 2, site_id := 1, date := "2025-01-10", slot_time := "08:30" }

/-- Witness for C4: reassigning reservation 1 to the free 08:30 slot
succeeds and retimes the reservation. -/
theorem C4_reassign_contract_witness :
    ((1 : Nat) ≠ 0 ∧ ("08:30" : String) ≠ "" ∧ findRes exDbC4 1 = some exResC4 ∧
      findSlot (ensureSlot 1 "2025-01-10" "08:30" exDbC4) 1 "2025-01-10" "08:30"
        = some exTgtC4 ∧
      truthyId exTgtC4.reserved_truck_id = false) ∧
    ((reassignOp 500 1 "08:30" exDbC4).1 = .ok 1 "08:30" "4321" ∧
      findRes (reassignOp 500 1 "08:30" exDbC4).2 1
        = some { exResC4 with slot_time := "08:30" }) :=
  ⟨⟨by decide, by decide, by decide, by decide, by decide⟩,
   by
     have h := (C4_reassign_contract 500 1 "08:30" exDbC4 exResC4 (by decide) (by decide)
       (by decide)).2 exTgtC4 (by decide)
     have h2 := h.2 (by decide)
     exact ⟨h2.1, h2.2.1⟩⟩

/-! ## C5 — administrative direct-reserve performs no slot checks -/

/-- A database with a disabled slot at 08:00 and a slot at 09:00 already
reserved by reservation 1. -/
def exDbC5 : DB :=
  { slots := [{ id := 1, site_id := 1, date := "2025-01-10", slot_time := "08:00", disabled := 1 },
              { id := 2, site_id := 1, date := "2025-01-10", slot_time := "09:00", reserved_truck_id := some 1, reserved_at := some 0 }],
    reservations := [{ id := 1, site_id := 1, date := "2025-01-10", slot_time := "09:00", queue_code := "1111" }],
    nextSlotId := 3, nextResId := 2 }

/-- **C5 (counterexample).**  The claim says admin direct-reserve fails
with Conflict on a disabled or reserved slot and NotFound on a missing
slot.  `POST /api/admin/reserve` does none of that: on the disabled 08:00
slot it succeeds; on the reserved 09:00 slot it succeeds and silently
overwrites the slot's reservation pointer; on the nonexistent 10:00 slot it
still creates a reservation (its result type has no Conflict/NotFound
outcome at all). -/
theorem C5_directReserve_counterexample :
    ((adminReserveOp 0 0 1 "2025-01-10" "08:00" {} none exDbC5).1 = .ok 2 "1000") ∧
    ((adminReserveOp 0 0 1 "2025-01-10" "09:00" {} none exDbC5).1 = .ok 2 "1000" ∧
      ∃ s ∈ (adminReserveOp 0 0 1 "2025-01-10" "09:00" {} none exDbC5).2.slots,
        s.id = 2 ∧ s.reserved_truck_id = some 2) ∧
    ((adminReserveOp 0 0 1 "2025-01-10" "10:00" {} none exDbC5).1 = .ok 2 "1000" ∧
      (adminReserveOp 0 0 1 "2025-01-10" "10:00" {} none exDbC5).2.reservations.length = 2) := by
  refine ⟨by decide, ⟨by decide, ?_⟩, by decide, by decide⟩
  exact ⟨{ id := 2, site_id := 1, date := "2025-01-10", slot_time := "09:00", reserved_truck_id := some 2, reserved_at := some 0 }, by decide, by decide, by decide⟩

/-- **C5 (amended).**  The administrative direct-reserve path performs no
slot checks at all: with the three key fields present it always succeeds,
inserting a reservation (queue code = the caller-supplied code if truthy,
else a fresh 4-digit code) and unconditionally stamping every slot row at
(site, date, time) — disabled or reserved ones included — as reserved by
it; when no slot row exists the reservation is still created with no slot
updated.  The probe-upsert create path, by contrast, returns NotFound for
an absent slot and rejects an already-reserved slot — but as a generic
server error (HTTP 500 from the thrown exception), not Conflict — and
checks `disabled` nowhere. -/
theorem C5_directReserve_amended :
    (∀ (now rand : Nat) (site : Nat) (date time : String) (d : Details)
       (qc : Option String) (db : DB),
      site ≠ 0 → date ≠ "" → time ≠ "" →
      (adminReserveOp now rand site date time d qc db).1
        = .ok db.nextResId (jsOr qc (fourDigit rand)) ∧
      mkReservation db.nextResId site date time d (jsOr qc (fourDigit rand))
        ∈ (adminReserveOp now rand site date time d qc db).2.reservations ∧
      (∀ s ∈ db.slots, slotKeyMatch site date time s = true →
        { s with reserved_truck_id := some db.nextResId, reserved_at := some now }
          ∈ (adminReserveOp now rand site date time d qc db).2.slots)) ∧
    (∀ (now rand : Nat) (site : Nat) (date time : String) (d : Details) (db : DB),
      site ≠ 0 → date ≠ "" → time ≠ "" →
      (findSlot db site date time = none →
        probeUpsertOp now rand site date time none d db = (.notFound, db)) ∧
      (∀ slot, findSlot db site date time = some slot →
        truthyId slot.reserved_truck_id = true →
        probeUpsertOp now rand site date time none d db = (.serverError, db))) := by
  constructor
  · intro now rand site date time d qc db hs hd ht
    have hg : (site == 0 || date == "" || time == "") = false := by
      simp [hs, hd, ht]
    unfold adminReserveOp
    simp only [hg, Bool.false_eq_true, if_false]
    refine ⟨by trivial, List.mem_append_right _ (List.mem_singleton.mpr rfl), ?_⟩
    intro s hsmem hkey
    refine List.mem_map.mpr ⟨s, hsmem, ?_⟩
    rw [hkey]
    simp
  · intro now rand site date time d db hs hd ht
    have hg : (site == 0 || date == "" || time == "") = false := by
      simp [hs, hd, ht]
    constructor
    · intro hnone
      unfold probeUpsertOp
      simp [hg, hnone]
    · intro slot hslot htr
      unfold probeUpsertOp
      simp only [hg, Bool.false_eq_true, if_false, hslot]
      have : truthyId (none : Option Nat) = false := rfl
      simp [this, htr]

/-- Witness for the amended C5: admin direct-reserve on the *disabled*
08:00 slot of `exDbC5` succeeds and stamps the disabled row. -/
theorem C5_directReserve_amended_witness :
    ((1 : Nat) ≠ 0 ∧ ("2025-01-10" : String) ≠ "" ∧ ("08:00" : String) ≠ "") ∧
    (adminReserveOp 0 0 1 "2025-01-10" "08:00" {} none exDbC5).1 = .ok 2 "1000" :=
  ⟨⟨by decide, by decide, by decide⟩,
   (C5_directReserve_amended.1 0 0 1 "2025-01-10" "08:00" {} none exDbC5
     (by decide) (by decide) (by decide)).1⟩

/-! ## C6 — publish: lemmas about the transaction steps -/

theorem foldl_invariant {α β : Type} (P : β → Prop) (f : β → α → β) (l : List α) (b : β)
    (hb : P b) (hf : ∀ b' a, a ∈ l → P b' → P (f b' a)) : P (l.foldl f b) := by
  induction l generalizing b with
  | nil => exact hb
  | cons x xs ih =>
    exact ih (f b x) (hf b x (List.mem_cons_self x xs) hb)
      (fun b' a ha hP => hf b' a (List.mem_cons_of_mem x ha) hP)

theorem upsertSetting_slots (site : Nat) (date : String) (target : Nat)
    (open_time close_time : String) (db : DB) :
    (upsertSetting site date target open_time close_time db).slots = db.slots ∧
    (upsertSetting site date target open_time close_time db).nextSlotId = db.nextSlotId := by
  unfold upsertSetting
  split <;> exact ⟨rfl, rfl⟩

theorem upsertSlot_nextSlotId (site : Nat) (date t : String) (dis : Nat) (db : DB) :
    db.nextSlotId ≤ (upsertSlot site date t dis db).nextSlotId := by
  unfold upsertSlot
  split
  · exact Nat.le_refl _
  · exact Nat.le_succ _

/-- Any existing row survives an upsert step with its identity, key,
reservation binding and hold fields intact (only `disabled` may change). -/
theorem upsertSlot_keep (site : Nat) (date t : String) (dis : Nat) (db : DB)
    (s : Slot) (hs : s ∈ db.slots) :
    ∃ s' ∈ (upsertSlot site date t dis db).slots,
      s'.id = s.id ∧ s'.site_id = s.site_id ∧ s'.date = s.date ∧
      s'.slot_time = s.slot_time ∧ s'.reserved_truck_id = s.reserved_truck_id ∧
      s'.reserved_at = s.reserved_at ∧ s'.hold_token = s.hold_token ∧
      s'.hold_expires_at = s.hold_expires_at := by
  unfold upsertSlot
  split
  · by_cases h : (s.site_id == site && s.date == date && s.slot_time == t
        && s.is_workin == 0) = true
    · refine ⟨{ s with disabled := dis }, ?_, rfl, rfl, rfl, rfl, rfl, rfl, rfl, rfl⟩
      refine List.mem_map.mpr ⟨s, hs, ?_⟩
      rw [if_pos h]
    · refine ⟨s, ?_, rfl, rfl, rfl, rfl, rfl, rfl, rfl, rfl⟩
      refine List.mem_map.mpr ⟨s, hs, ?_⟩
      rw [if_neg h]
  · exact ⟨s, List.mem_append_left _ hs, rfl, rfl, rfl, rfl, rfl, rfl, rfl, rfl⟩

/-- A row of a different site/day is left exactly as it is by an upsert
step. -/
theorem upsertSlot_mem_other (site : Nat) (date t : String) (dis : Nat) (db : DB)
    (s : Slot) (hs : s ∈ db.slots) (h : ¬(s.site_id = site ∧ s.date = date)) :
    s ∈ (upsertSlot site date t dis db).slots := by
  unfold upsertSlot
  split
  · have hc : ¬((s.site_id == site && s.date == date && s.slot_time == t
        && s.is_workin == 0) = true) := by
      intro hcond
      simp only [Bool.and_eq_true, beq_iff_eq] at hcond
      exact h ⟨hcond.1.1.1, hcond.1.1.2⟩
    refine List.mem_map.mpr ⟨s, hs, ?_⟩
    rw [if_neg hc]
  · exact List.mem_append_left _ hs

/-- Every row present after an upsert step either was present before (with
at most its `disabled` flag changed) or is the freshly inserted row. -/
theorem upsertSlot_mem_src (site : Nat) (date t : String) (dis : Nat) (db : DB)
    (s' : Slot) (hs' : s' ∈ (upsertSlot site date t dis db).slots) :
    (∃ s ∈ db.slots, s' = s ∨ s' = { s with disabled := dis }) ∨
    s' = { id := db.nextSlotId, site_id := site, date := date, slot_time := t, disabled := dis } := by
  unfold upsertSlot at hs'
  split at hs'
  · obtain ⟨s, hs, heq⟩ := List.mem_map.mp hs'
    refine Or.inl ⟨s, hs, ?_⟩
    by_cases h : (s.site_id == site && s.date == date && s.slot_time == t
        && s.is_workin == 0) = true
    · rw [if_pos h] at heq
      exact Or.inr heq.symm
    · rw [if_neg h] at heq
      exact Or.inl heq.symm
  · rcases List.mem_append.mp hs' with h | h
    · exact Or.inl ⟨s', h, Or.inl rfl⟩
    · exact Or.inr (List.mem_singleton.mp h)

theorem dateRe_ne (s : String) (h : dateRe s = true) : s ≠ "" := by
  intro he
  subst he
  exact absurd h (by decide)

theorem hhmmRe_ne (s : String) (h : hhmmRe s = true) : s ≠ "" := by
  intro he
  subst he
  exact absurd h (by decide)

/-- The `times` list a publish/preview computes (`toHHMM` over the minute
loop at the computed interval). -/
def publishTimes (site : Nat) (open_time close_time : String) (target wantedInt : Nat) :
    List String :=
  (genTimesMin (toMin open_time) (toMin close_time)
    (computeInterval site (toMin open_time) (toMin close_time) target wantedInt) target).map
    toHHMM

/-- On valid input, publish returns the interval / generated count /
disabled count and commits the transaction. -/
theorem publishOp_valid (site : Nat) (date open_time close_time : String)
    (target disabled_loads wantedInt : Nat) (db : DB)
    (hs : site ≠ 0) (hdre : dateRe date = true) (hore : hhmmRe open_time = true)
    (hcre : hhmmRe close_time = true) (ht : target ≠ 0)
    (hoc : toMin open_time < toMin close_time) :
    publishOp site date open_time close_time target disabled_loads wantedInt db =
      (.ok (computeInterval site (toMin open_time) (toMin close_time) target wantedInt)
         (publishTimes site open_time close_time target wantedInt).length
         (disabledSetOf (publishTimes site open_time close_time target wantedInt)
           disabled_loads).length,
       publishTx site date target open_time close_time
         (publishTimes site open_time close_time target wantedInt)
         (disabledSetOf (publishTimes site open_time close_time target wantedInt)
           disabled_loads) db) := by
  have hd := dateRe_ne date hdre
  have ho := hhmmRe_ne _ hore
  have hc := hhmmRe_ne _ hcre
  have hg1 : (site == 0 || date == "" || open_time == "" || close_time == ""
      || target == 0) = false := by
    simp [hs, hd, ho, hc, ht]
  have hg4 : ¬(target < 1) := by omega
  unfold publishOp publishTimes
  simp [hg1, hdre, hore, hcre, hg4, hoc]

/-- `publishTx` unrolled to its four steps (definitional). -/
theorem publishTx_eq (site : Nat) (date : String) (target : Nat)
    (open_time close_time : String) (times dset : List String) (db : DB) :
    publishTx site date target open_time close_time times dset db =
      times.foldl (fun acc t =>
          upsertSlot site date t (if dset.contains t then 1 else 0) acc)
        { upsertSetting site date target open_time close_time db with
          slots := ((upsertSetting site date target open_time close_time db).slots.filter
              (fun s => !(s.site_id == site && s.date == date
                && (s.reserved_truck_id == none || s.reserved_truck_id == some 0)))).map
            (fun s => if s.site_id == site && s.date == date then
              { s with hold_token := none, hold_expires_at := none } else s) } := rfl

/-- Publish keeps every reserved slot of the site/day: same id, key and
reservation binding, with the hold fields cleared. -/
theorem publishTx_reserved_kept (site : Nat) (date : String) (target : Nat)
    (open_time close_time : String) (times dset : List String) (db : DB) (s : Slot)
    (hs : s ∈ db.slots) (hsite : s.site_id = site) (hdate : s.date = date)
    (hresv : s.reserved_truck_id ≠ none) (hres0 : s.reserved_truck_id ≠ some 0) :
    ∃ s' ∈ (publishTx site date target open_time close_time times dset db).slots,
      s'.id = s.id ∧ s'.site_id = s.site_id ∧ s'.date = s.date ∧
      s'.slot_time = s.slot_time ∧ s'.reserved_truck_id = s.reserved_truck_id ∧
      s'.reserved_at = s.reserved_at ∧ s'.hold_token = none ∧
      s'.hold_expires_at = none := by
  rw [publishTx_eq]
  obtain ⟨hAslots, -⟩ := upsertSetting_slots site date target open_time close_time db
  have h1 : (s.reserved_truck_id == none) = false := beq_eq_false_iff_ne.mpr hresv
  have h2 : (s.reserved_truck_id == some 0) = false := beq_eq_false_iff_ne.mpr hres0
  have hsB : s ∈ (upsertSetting site date target open_time close_time db).slots.filter
      (fun s => !(s.site_id == site && s.date == date
        && (s.reserved_truck_id == none || s.reserved_truck_id == some 0))) := by
    rw [hAslots]
    refine List.mem_filter.mpr ⟨hs, ?_⟩
    simp [hsite, hdate, h1, h2]
  refine foldl_invariant (fun (db' : DB) => ∃ s' ∈ db'.slots,
      s'.id = s.id ∧ s'.site_id = s.site_id ∧ s'.date = s.date ∧
      s'.slot_time = s.slot_time ∧ s'.reserved_truck_id = s.reserved_truck_id ∧
      s'.reserved_at = s.reserved_at ∧ s'.hold_token = none ∧
      s'.hold_expires_at = none) _ times _ ?_ ?_
  · refine ⟨{ s with hold_token := none, hold_expires_at := none }, ?_, rfl, rfl, rfl, rfl, rfl, rfl, rfl, rfl⟩
    show _ ∈ List.map _ _
    refine List.mem_map.mpr ⟨s, hsB, ?_⟩
    rw [if_pos (by simp [hsite, hdate])]
  · intro db' t _ hP
    obtain ⟨s', hs', e1, e2, e3, e4, e5, e6, e7, e8⟩ := hP
    obtain ⟨s'', hs'', f1, f2, f3, f4, f5, f6, f7, f8⟩ :=
      upsertSlot_keep site date t (if dset.contains t then 1 else 0) db' s' hs'
    exact ⟨s'', hs'', f1.trans e1, f2.trans e2, f3.trans e3, f4.trans e4,
      f5.trans e5, f6.trans e6, f7.trans e7, f8.trans e8⟩

/-- After publish, no slot of the site/day carries a hold. -/
theorem publishTx_holds_cleared (site : Nat) (date : String) (target : Nat)
    (open_time close_time : String) (times dset : List String) (db : DB) :
    ∀ s' ∈ (publishTx site date target open_time close_time times dset db).slots,
      s'.site_id = site → s'.date = date →
      s'.hold_token = none ∧ s'.hold_expires_at = none := by
  rw [publishTx_eq]
  refine foldl_invariant (fun (db' : DB) => ∀ s' ∈ db'.slots,
      s'.site_id = site → s'.date = date →
      s'.hold_token = none ∧ s'.hold_expires_at = none) _ times _ ?_ ?_
  · intro s' hs' hsite hdate
    obtain ⟨y, -, heq⟩ := List.mem_map.mp hs'
    by_cases h : (y.site_id == site && y.date == date) = true
    · rw [if_pos h] at heq
      rw [← heq]
      exact ⟨rfl, rfl⟩
    · rw [if_neg h] at heq
      subst heq
      exact absurd (by simp [hsite, hdate]) h
  · intro db' t _ hP s' hs' hsite hdate
    rcases upsertSlot_mem_src site date t (if dset.contains t then 1 else 0) db' s' hs'
      with ⟨y, hy, hcase⟩ | hfresh
    · rcases hcase with he | he
      · subst he
        exact hP _ hy hsite hdate
      · subst he
        exact hP y hy hsite hdate
    · rw [hfresh] at hsite hdate ⊢
      exact ⟨rfl, rfl⟩

/-- Publish deletes every non-reserved slot row of the site/day: its row id
is gone from the post-state. -/
theorem publishTx_nonreserved_gone (site : Nat) (date : String) (target : Nat)
    (open_time close_time : String) (times dset : List String) (db : DB) (s : Slot)
    (hpw : db.slots.Pairwise (fun a b => a.id ≠ b.id))
    (hidlt : ∀ x ∈ db.slots, x.id < db.nextSlotId)
    (hs : s ∈ db.slots) (hsite : s.site_id = site) (hdate : s.date = date)
    (hresv : s.reserved_truck_id = none) :
    ∀ s' ∈ (publishTx site date target open_time close_time times dset db).slots,
      s'.id ≠ s.id := by
  rw [publishTx_eq]
  obtain ⟨hAslots, hAnext⟩ := upsertSetting_slots site date target open_time close_time db
  have hmain := foldl_invariant (fun (db' : DB) =>
      (∀ x ∈ db'.slots, x.id ≠ s.id) ∧ s.id < db'.nextSlotId)
    (fun acc t => upsertSlot site date t (if dset.contains t then 1 else 0) acc) times
    { upsertSetting site date target open_time close_time db with
      slots := ((upsertSetting site date target open_time close_time db).slots.filter
          (fun s => !(s.site_id == site && s.date == date
            && (s.reserved_truck_id == none || s.reserved_truck_id == some 0)))).map
        (fun s => if s.site_id == site && s.date == date then
          { s with hold_token := none, hold_expires_at := none } else s) } ?_ ?_
  · exact hmain.1
  · constructor
    · intro x hx
      obtain ⟨y, hyf, heq⟩ := List.mem_map.mp hx
      have hy := List.mem_filter.mp hyf
      rw [hAslots] at hy
      obtain ⟨hymem, hycond⟩ := hy
      have hsym : Symmetric (fun (a b : Slot) => a.id ≠ b.id) :=
        fun _ _ h he => h he.symm
      have hyid : y.id ≠ s.id := by
        by_cases hys : y = s
        · subst hys
          exfalso
          revert hycond
          simp [hsite, hdate, hresv]
        · exact List.Pairwise.forall hsym hpw hymem hs hys
      have : x.id = y.id := by
        by_cases h : (y.site_id == site && y.date == date) = true
        · rw [if_pos h] at heq
          rw [← heq]
        · rw [if_neg h] at heq
          rw [← heq]
      rw [this]
      exact hyid
    · show s.id < (upsertSetting site date target open_time close_time db).nextSlotId
      rw [hAnext]
      exact hidlt s hs
  · intro db' t _ hP
    refine ⟨?_, Nat.lt_of_lt_of_le hP.2 (upsertSlot_nextSlotId site date t _ db')⟩
    intro x hx
    rcases upsertSlot_mem_src site date t (if dset.contains t then 1 else 0) db' x hx
      with ⟨y, hy, hcase⟩ | hfresh
    · have h1 := hP.1 y hy
      rcases hcase with he | he <;> subst he <;> exact h1
    · rw [hfresh]
      intro he
      have he' : db'.nextSlotId = s.id := he
      have := hP.2
      omega

theorem upsertSlot_key_exists (site : Nat) (date t : String) (dis : Nat) (db : DB) :
    ∃ s' ∈ (upsertSlot site date t dis db).slots,
      s'.site_id = site ∧ s'.date = date ∧ s'.slot_time = t := by
  unfold upsertSlot
  split
  case isTrue h =>
    obtain ⟨s, hs, hcond⟩ := List.any_eq_true.mp h
    have hcond' := hcond
    simp only [Bool.and_eq_true, beq_iff_eq] at hcond'
    refine ⟨{ s with disabled := dis }, ?_, hcond'.1.1.1, hcond'.1.1.2, hcond'.1.2⟩
    refine List.mem_map.mpr ⟨s, hs, ?_⟩
    rw [if_pos hcond]
  case isFalse h =>
    exact ⟨_, List.mem_append_right _ (List.mem_singleton.mpr rfl), rfl, rfl, rfl⟩

/-- Every generated time has a slot row after publish. -/
theorem publishTx_times_exist (site : Nat) (date : String) (target : Nat)
    (open_time close_time : String) (times dset : List String) (db : DB)
    (t : String) (ht : t ∈ times) :
    ∃ s' ∈ (publishTx site date target open_time close_time times dset db).slots,
      s'.site_id = site ∧ s'.date = date ∧ s'.slot_time = t := by
  rw [publishTx_eq]
  obtain ⟨l1, l2, rfl⟩ := List.append_of_mem ht
  rw [List.foldl_append, List.foldl_cons]
  refine foldl_invariant (fun (db' : DB) => ∃ s' ∈ db'.slots,
      s'.site_id = site ∧ s'.date = date ∧ s'.slot_time = t) _ l2 _ ?_ ?_
  · exact upsertSlot_key_exists site date t _ _
  · intro db' t2 _ hP
    obtain ⟨s', hs', e1, e2, e3⟩ := hP
    obtain ⟨s'', hs'', f1, f2, f3, f4, f5, f6, f7, f8⟩ :=
      upsertSlot_keep site date t2 (if dset.contains t2 then 1 else 0) db' s' hs'
    exact ⟨s'', hs'', f2.trans e1, f3.trans e2, f4.trans e3⟩

/-- Slot rows of other site/days pass through publish untouched. -/
theorem publishTx_other_kept (site : Nat) (date : String) (target : Nat)
    (open_time close_time : String) (times dset : List String) (db : DB) (s : Slot)
    (hs : s ∈ db.slots) (h : ¬(s.site_id = site ∧ s.date = date)) :
    s ∈ (publishTx site date target open_time close_time times dset db).slots := by
  rw [publishTx_eq]
  obtain ⟨hAslots, -⟩ := upsertSetting_slots site date target open_time close_time db
  have hkeyF : (s.site_id == site && s.date == date) = false := by
    rcases not_and_or.mp h with h1 | h1
    · have : (s.site_id == site) = false := beq_eq_false_iff_ne.mpr h1
      simp [this]
    · have : (s.date == date) = false := beq_eq_false_iff_ne.mpr h1
      simp [this]
  refine foldl_invariant (fun (db' : DB) => s ∈ db'.slots) _ times _ ?_ ?_
  · show s ∈ List.map _ _
    refine List.mem_map.mpr ⟨s, ?_, ?_⟩
    · rw [hAslots]
      refine List.mem_filter.mpr ⟨hs, ?_⟩
      simp [hkeyF]
    · rw [if_neg (by simp [hkeyF])]
  · intro db' t _ hP
    exact upsertSlot_mem_other site date t _ db' s hP h

/-- **C6.**  For every publish of a day's schedule with valid parameters
(fields present, well-formed date and `HH:MM` times, `target ≥ 1`,
`close > open`, and a well-formed database: distinct row ids below the
autoincrement counter and no zero reservation pointer): every slot carrying
a reservation keeps its id, key and reservation binding untouched; no slot
of that site/day carries a hold afterwards (an in-flight hold does not
survive a republish); every non-reserved slot row of that site/day is
deleted (its row id is gone) and the newly generated time set is
materialized as slot rows; rows of other site/days pass through
unchanged. -/
theorem C6_publish_contract :
    ∀ (site : Nat) (date open_time close_time : String)
      (target disabled_loads wantedInt : Nat) (db : DB),
      site ≠ 0 → dateRe date = true → hhmmRe open_time = true →
      hhmmRe close_time = true → target ≠ 0 → toMin open_time < toMin close_time →
      db.slots.Pairwise (fun a b => a.id ≠ b.id) →
      (∀ s ∈ db.slots, s.id < db.nextSlotId) →
      (∀ s ∈ db.slots, s.reserved_truck_id ≠ some 0) →
      ((∀ s ∈ db.slots, s.site_id = site → s.date = date →
          s.reserved_truck_id ≠ none →
        ∃ s' ∈ (publishOp site date open_time close_time target disabled_loads
            wantedInt db).2.slots,
          s'.id = s.id ∧ s'.site_id = s.site_id ∧ s'.date = s.date ∧
          s'.slot_time = s.slot_time ∧ s'.reserved_truck_id = s.reserved_truck_id ∧
          s'.reserved_at = s.reserved_at) ∧
       (∀ s' ∈ (publishOp site date open_time close_time target disabled_loads
            wantedInt db).2.slots,
          s'.site_id = site → s'.date = date →
          s'.hold_token = none ∧ s'.hold_expires_at = none) ∧
       (∀ s ∈ db.slots, s.site_id = site → s.date = date →
          s.reserved_truck_id = none →
          ∀ s' ∈ (publishOp site date open_time close_time target disabled_loads
            wantedInt db).2.slots, s'.id ≠ s.id) ∧
       (∀ t ∈ publishTimes site open_time close_time target wantedInt,
          ∃ s' ∈ (publishOp site date open_time close_time target disabled_loads
            wantedInt db).2.slots,
            s'.site_id = site ∧ s'.date = date ∧ s'.slot_time = t) ∧
       (∀ s ∈ db.slots, ¬(s.site_id = site ∧ s.date = date) →
          s ∈ (publishOp site date open_time close_time target disabled_loads
            wantedInt db).2.slots)) := by
  intro site date open_time close_time target dl wi db hs hdre hore hcre ht hoc
    hpw hidlt hres0
  have h2 : (publishOp site date open_time close_time target dl wi db).2
      = publishTx site date target open_time close_time
          (publishTimes site open_time close_time target wi)
          (disabledSetOf (publishTimes site open_time close_time target wi) dl) db := by
    rw [publishOp_valid site date open_time close_time target dl wi db
      hs hdre hore hcre ht hoc]
  rw [h2]
  refine ⟨?_, ?_, ?_, ?_, ?_⟩
  · intro s hsm h1 hd2 hr
    obtain ⟨s', hmem, e1, e2, e3, e4, e5, e6, -, -⟩ :=
      publishTx_reserved_kept site date target open_time close_time _ _ db s
        hsm h1 hd2 hr (hres0 s hsm)
    exact ⟨s', hmem, e1, e2, e3, e4, e5, e6⟩
  · exact publishTx_holds_cleared site date target open_time close_time _ _ db
  · intro s hsm h1 hd2 hr
    exact publishTx_nonreserved_gone site date target open_time close_time _ _ db s
      hpw hidlt hsm h1 hd2 hr
  · intro t htm
    exact publishTx_times_exist site date target open_time close_time _ _ db t htm
  · intro s hsm hno
    exact publishTx_other_kept site date target open_time close_time _ _ db s hsm hno

/-- Example database for the C6 witness: the reserved 08:00 slot of site 1
on 2025-01-10, plus a free 07:30 slot of the same day and a slot of another
day. -/
def exDbC6 : DB :=
  { slots := [{ id := 1, site_id := 1, date := "2025-01-10", slot_time := "08:00", reserved_truck_id := some 1, reserved_at := some 5, hold_token := some "h", hold_expires_at := some 99 },
              { id := 2, site_id := 1, date := "2025-01-10", slot_time := "07:30" },
              { id := 3, site_id := 1, date := "2025-01-11", slot_time := "07:30" }],
    reservations := [{ id := 1, site_id := 1, date := "2025-01-10", slot_time := "08:00", queue_code := "2222" }],
    nextSlotId := 4, nextResId := 2 }

/-- Witness for C6: republishing 07:00–09:00 with target 3 over `exDbC6`
keeps the reserved row's binding (the theorem applied at concrete input). -/
theorem C6_publish_contract_witness :
    ((1 : Nat) ≠ 0 ∧ dateRe "2025-01-10" = true ∧ hhmmRe "07:00" = true ∧
      hhmmRe "09:00" = true ∧ (3 : Nat) ≠ 0 ∧ toMin "07:00" < toMin "09:00" ∧
      exDbC6.slots.Pairwise (fun a b => a.id ≠ b.id) ∧
      (∀ s ∈ exDbC6.slots, s.id < exDbC6.nextSlotId) ∧
      (∀ s ∈ exDbC6.slots, s.reserved_truck_id ≠ some 0)) ∧
    (∃ s' ∈ (publishOp 1 "2025-01-10" "07:00" "09:00" 3 0 0 exDbC6).2.slots,
      s'.id = 1 ∧ s'.site_id = 1 ∧ s'.date = "2025-01-10" ∧
      s'.slot_time = "08:00" ∧ s'.reserved_truck_id = some 1 ∧
      s'.reserved_at = some 5) :=
  ⟨⟨by decide, by decide, by decide, by decide, by decide, by decide, by decide,
    by decide, by decide⟩,
   (C6_publish_contract 1 "2025-01-10" "07:00" "09:00" 3 0 0 exDbC6
      (by decide) (by decide) (by decide) (by decide) (by decide) (by decide)
      (by decide) (by decide) (by decide)).1
     { id := 1, site_id := 1, date := "2025-01-10", slot_time := "08:00", reserved_truck_id := some 1, reserved_at := some 5, hold_token := some "h", hold_expires_at := some 99 }
     (by decide) (by decide) (by decide) (by decide)⟩

/-! ## C7 — schedule generation -/

/-- The generation loop emits exactly the arithmetic progression
`startM + i*I` for `i < min target ((endM−startM)/I + 1)`. -/
theorem genTimesMin_eq_map_range (startM endM I : Nat) (hI : 0 < I)
    (hse : startM ≤ endM) (target : Nat) :
    genTimesMin startM endM I target
      = (List.range (min target ((endM - startM) / I + 1))).map
          (fun i => startM + i * I) := by
  induction target with
  | zero => rfl
  | succ k ih =>
    unfold genTimesMin at ih ⊢
    rw [List.range_succ, List.filterMap_append, ih]
    by_cases h : startM + k * I ≤ endM
    · have hk : k ≤ (endM - startM) / I := (Nat.le_div_iff_mul_le hI).mpr (by omega)
      have hmin1 : min (k + 1) ((endM - startM) / I + 1)
          = min k ((endM - startM) / I + 1) + 1 := by omega
      have hmin2 : min k ((endM - startM) / I + 1) = k := by omega
      rw [hmin1, hmin2, List.range_succ, List.map_append]
      congr 1
      simp [h, Nat.le_add_right]
    · have hk : ¬(k ≤ (endM - startM) / I) := fun hc =>
        h (by have := (Nat.le_div_iff_mul_le hI).mp hc; omega)
      have hmin1 : min (k + 1) ((endM - startM) / I + 1)
          = min k ((endM - startM) / I + 1) := by omega
      rw [hmin1]
      have : List.filterMap (fun i =>
          let t := startM + i * I
          if startM ≤ t && t ≤ endM then some t else none) [k] = [] := by
        simp [h]
      rw [this, List.append_nil]

theorem genTimesMin_head (startM endM I target : Nat) (hI : 0 < I)
    (hse : startM ≤ endM) (ht : target ≠ 0) :
    (genTimesMin startM endM I target).head? = some startM := by
  rw [genTimesMin_eq_map_range startM endM I hI hse target]
  have h0 : 0 < min target ((endM - startM) / I + 1) :=
    lt_min (Nat.pos_of_ne_zero ht) (Nat.succ_pos _)
  obtain ⟨k, hk⟩ : ∃ k, min target ((endM - startM) / I + 1) = k + 1 :=
    ⟨_, (Nat.succ_pred_eq_of_pos h0).symm⟩
  rw [hk, List.range_succ_eq_map]
  simp

theorem genTimesMin_length_le (startM endM I target : Nat) :
    (genTimesMin startM endM I target).length ≤ target := by
  unfold genTimesMin
  calc (List.filterMap _ (List.range target)).length
      ≤ (List.range target).length := List.length_filterMap_le _ _
    _ = target := List.length_range target

theorem genTimesMin_mem_bounds (startM endM I target : Nat) (m : Nat)
    (hm : m ∈ genTimesMin startM endM I target) :
    startM ≤ m ∧ m ≤ endM := by
  unfold genTimesMin at hm
  obtain ⟨i, -, hif⟩ := List.mem_filterMap.mp hm
  by_cases h : (decide (startM ≤ startM + i * I) && decide (startM + i * I ≤ endM)) = true
  · simp only [h, if_pos] at hif
    simp only [Bool.and_eq_true, decide_eq_true_eq] at h
    cases hif
    exact h
  · rw [if_neg (by simpa using h)] at hif
    cases hif

theorem genTimesMin_step (startM endM I target : Nat) (hI : 0 < I)
    (hse : startM ≤ endM) (j : Nat)
    (h : j + 1 < (genTimesMin startM endM I target).length) :
    (genTimesMin startM endM I target).get ⟨j + 1, h⟩
      = (genTimesMin startM endM I target).get ⟨j, Nat.lt_of_succ_lt h⟩ + I := by
  have he := genTimesMin_eq_map_range startM endM I hI hse target
  have hlen : (genTimesMin startM endM I target).length
      = min target ((endM - startM) / I + 1) := by
    rw [he, List.length_map, List.length_range]
  have h1 : j + 1 < min target ((endM - startM) / I + 1) := hlen ▸ h
  have hget : ∀ (i : Nat) (hi : i < (genTimesMin startM endM I target).length),
      (genTimesMin startM endM I target).get ⟨i, hi⟩ = startM + i * I := by
    intro i hi
    have hi' : i < min target ((endM - startM) / I + 1) := hlen ▸ hi
    rw [List.get_of_eq he]
    simp
  rw [hget (j + 1) h, hget j (Nat.lt_of_succ_lt h)]
  ring

/-- On valid input, preview returns the computed interval and the generated
items. -/
theorem previewOp_valid (site : Nat) (date open_time close_time : String)
    (target wantDisabled wantedInt : Nat)
    (hs : site ≠ 0) (hd : date ≠ "") (ho : open_time ≠ "") (hc : close_time ≠ "")
    (ht : target ≠ 0) (hoc : toMin open_time < toMin close_time) :
    previewOp site date open_time close_time target wantDisabled wantedInt
      = .ok (computeInterval site (toMin open_time) (toMin close_time) target wantedInt)
        ((publishTimes site open_time close_time target wantedInt).map (fun t =>
          ⟨t, if (disabledSetOf (publishTimes site open_time close_time target wantedInt)
              wantDisabled).contains t then 1 else 0⟩)) := by
  have hg : (site == 0 || date == "" || open_time == "" || close_time == ""
      || target == 0) = false := by
    simp [hs, hd, ho, hc, ht]
  unfold previewOp publishTimes
  simp [hg, hoc]

theorem computeInterval_pos (site startM endM target wantedInt : Nat) :
    0 < computeInterval site startM endM target wantedInt := by
  have h1 : 0 < minIntFor site := by
    unfold minIntFor
    split <;> omega
  unfold computeInterval
  exact Nat.lt_of_lt_of_le h1 (Nat.le_max_left _ _)

/-- **C7.**  For every schedule-generation input with `close > open` and
`loads_target ≥ 1` (and the key fields present): the computed interval
equals `max(site minimum interval, requested interval if > 0, else
⌊(close−open)/max(1, loads_target−1)⌋)`; the emitted list is the image
under `toHHMM` of a minute list that starts at `open`, has consecutive
entries differing by exactly the interval, has at most `loads_target`
entries, and lies inside `[open, close]`; the computation is a pure
function, so identical inputs give identical output; and the concrete
scenario open=07:00, close=09:00, target=25 at site 1 (minimum interval 5)
yields interval 5 and exactly the 25 slots 07:00, 07:05, …, 09:00. -/
theorem C7_schedule_generation :
    (∀ (site : Nat) (date open_time close_time : String)
       (target wantDisabled wantedInt : Nat),
      site ≠ 0 → date ≠ "" → open_time ≠ "" → close_time ≠ "" → target ≠ 0 →
      toMin open_time < toMin close_time →
      ∃ items,
        previewOp site date open_time close_time target wantDisabled wantedInt
          = .ok (max (minIntFor site)
              (if wantedInt > 0 then wantedInt
               else (toMin close_time - toMin open_time) / max 1 (target - 1))) items ∧
        ∃ ms : List Nat,
          items.map (fun it => it.slot_time) = ms.map toHHMM ∧
          ms.head? = some (toMin open_time) ∧
          ms.length ≤ target ∧
          (∀ m ∈ ms, toMin open_time ≤ m ∧ m ≤ toMin close_time) ∧
          (∀ (j : Nat) (h : j + 1 < ms.length),
            ms.get ⟨j + 1, h⟩ = ms.get ⟨j, Nat.lt_of_succ_lt h⟩
              + computeInterval site (toMin open_time) (toMin close_time)
                  target wantedInt)) ∧
    (∀ (site : Nat) (date open_time close_time : String)
       (target wantDisabled wantedInt : Nat),
      previewOp site date open_time close_time target wantDisabled wantedInt
        = previewOp site date open_time close_time target wantDisabled wantedInt) ∧
    previewOp 1 "2025-01-10" "07:00" "09:00" 25 0 0
      = .ok 5 (["07:00", "07:05", "07:10", "07:15", "07:20", "07:25", "07:30",
          "07:35", "07:40", "07:45", "07:50", "07:55", "08:00", "08:05", "08:10",
          "08:15", "08:20", "08:25", "08:30", "08:35", "08:40", "08:45", "08:50",
          "08:55", "09:00"].map (fun t => ⟨t, 0⟩)) := by
  refine ⟨?_, fun _ _ _ _ _ _ _ => rfl, by decide⟩
  intro site date open_time close_time target wantDisabled wantedInt
    hs hd ho hc ht hoc
  rw [previewOp_valid site date open_time close_time target wantDisabled wantedInt
    hs hd ho hc ht hoc]
  set I := computeInterval site (toMin open_time) (toMin close_time) target wantedInt
    with hIdef
  have hI : 0 < I := computeInterval_pos site _ _ target wantedInt
  have hse : toMin open_time ≤ toMin close_time := Nat.le_of_lt hoc
  refine ⟨(publishTimes site open_time close_time target wantedInt).map (fun t =>
      ⟨t, if (disabledSetOf (publishTimes site open_time close_time target wantedInt)
          wantDisabled).contains t then 1 else 0⟩), ?_,
    genTimesMin (toMin open_time) (toMin close_time) I target, ?_, ?_, ?_, ?_, ?_⟩
  · rw [hIdef]
    rfl
  · unfold publishTimes
    rw [List.map_map, List.map_map]
    rfl
  · exact genTimesMin_head _ _ I target hI hse ht
  · exact genTimesMin_length_le _ _ I target
  · exact genTimesMin_mem_bounds _ _ I target
  · exact genTimesMin_step _ _ I target hI hse

/-- Witness for C7: the generic part applied at the concrete scenario
inputs. -/
theorem C7_schedule_generation_witness :
    ((1 : Nat) ≠ 0 ∧ ("2025-01-10" : String) ≠ "" ∧ ("07:00" : String) ≠ "" ∧
      ("09:00" : String) ≠ "" ∧ (25 : Nat) ≠ 0 ∧ toMin "07:00" < toMin "09:00") ∧
    (∃ items,
      previewOp 1 "2025-01-10" "07:00" "09:00" 25 0 0
        = .ok (max (minIntFor 1)
            (if (0 : Nat) > 0 then 0
             else (toMin "09:00" - toMin "07:00") / max 1 (25 - 1))) items ∧
      ∃ ms : List Nat,
        items.map (fun it => it.slot_time) = ms.map toHHMM ∧
        ms.head? = some (toMin "07:00") ∧
        ms.length ≤ 25 ∧
        (∀ m ∈ ms, toMin "07:00" ≤ m ∧ m ≤ toMin "09:00") ∧
        (∀ (j : Nat) (h : j + 1 < ms.length),
          ms.get ⟨j + 1, h⟩ = ms.get ⟨j, Nat.lt_of_succ_lt h⟩
            + computeInterval 1 (toMin "07:00") (toMin "09:00") 25 0)) :=
  ⟨⟨by decide, by decide, by decide, by decide, by decide, by decide⟩,
   C7_schedule_generation.1 1 "2025-01-10" "07:00" "09:00" 25 0 0
     (by decide) (by decide) (by decide) (by decide) (by decide) (by decide)⟩

/-! ## C8 — mass-cancel -/

theorem massCancelResStep_some (db : DB) (acc : List CanceledInfo) (rid : Nat)
    (r : Reservation) (h : findRes db rid = some r) :
    massCancelResStep (db, acc) rid
      = (cancelDeleteRes rid (cancelClearSlot r db),
         acc ++ [⟨rid, r.site_id, r.date, r.slot_time, r.driver_phone⟩]) := by
  unfold massCancelResStep
  simp [h]

theorem massCancelResStep_none (db : DB) (acc : List CanceledInfo) (rid : Nat)
    (h : findRes db rid = none) :
    massCancelResStep (db, acc) rid = (db, acc) := by
  unfold massCancelResStep
  simp [h]

theorem findRes_cancelClearSlot (r : Reservation) (db : DB) (rid : Nat) :
    findRes (cancelClearSlot r db) rid = findRes db rid := rfl

theorem findRes_delete_none (rid rid2 : Nat) (db : DB)
    (h : findRes db rid2 = none) :
    findRes (cancelDeleteRes rid db) rid2 = none := by
  unfold findRes cancelDeleteRes at *
  rw [List.find?_eq_none] at h ⊢
  intro x hx
  exact h x (List.mem_of_mem_filter hx)

theorem findRes_delete_self (rid : Nat) (db : DB) :
    findRes (cancelDeleteRes rid db) rid = none := by
  unfold findRes cancelDeleteRes
  rw [List.find?_eq_none]
  intro x hx
  have := (List.mem_filter.mp hx).2
  simpa using this

/-- A database holding the single reservation 1 on slot (1, 2025-01-10,
08:00). -/
def exDbC8 : DB :=
  { slots := [{ id := 1, site_id := 1, date := "2025-01-10", slot_time := "08:00", reserved_truck_id := some 1, reserved_at := some 0 }],
    reservations := [{ id := 1, site_id := 1, date := "2025-01-10", slot_time := "08:00", queue_code := "3333" }],
    nextSlotId := 2, nextResId := 2 }

/-- **C8 (counterexample).**  The claim says `massCancel([id1, id2])` with
id2 unknown returns `{canceled:[id1], failed:[id2]}`.  The response the
source builds has no failed enumeration at all: unknown ids are skipped
with `continue`.  Concretely, `massCancel([1,2])` and `massCancel([1,3])`
on a database holding only reservation 1 produce the *same* response — so
the response cannot enumerate which ids failed — and that response is
`{canceled: 1, removed_open: 0, details.reservations: [id 1], details.open_slots: []}`,
mentioning id 2 nowhere. -/
theorem C8_massCancel_counterexample :
    (massCancelOp 1 "2025-01-10" [1, 2] [] exDbC8).1
      = (massCancelOp 1 "2025-01-10" [1, 3] [] exDbC8).1 ∧
    (massCancelOp 1 "2025-01-10" [1, 2] [] exDbC8).1
      = .ok ⟨1, 0, [⟨1, 1, "2025-01-10", "08:00", none⟩], []⟩ := by
  exact ⟨by decide, by decide⟩

/-- **C8 (amended).**  Each reservation id of a mass-cancel batch is
processed independently (partial success allowed) and the response
enumerates exactly which cancellations *succeeded* (`details.reservations`
plus the `canceled` count); ids that resolve to no reservation are skipped
silently and are **not** enumerated as failed.  In particular
`massCancel([id1, id2])` with id2 unknown reports success count 1 with
details listing exactly id1, deletes reservation id1, and clears id1's
slot pointer. -/
theorem C8_massCancel_amended :
    ∀ (site : Nat) (date : String) (db : DB) (rid1 rid2 : Nat) (r1 : Reservation),
      site ≠ 0 → date ≠ "" →
      findRes db rid1 = some r1 →
      findRes db rid2 = none →
      (massCancelOp site date [rid1, rid2] [] db).1
          = .ok ⟨1, 0, [⟨rid1, r1.site_id, r1.date, r1.slot_time, r1.driver_phone⟩], []⟩ ∧
      findRes (massCancelOp site date [rid1, rid2] [] db).2 rid1 = none ∧
      (∀ s ∈ db.slots, s.site_id = r1.site_id → s.date = r1.date →
        s.slot_time = r1.slot_time → s.reserved_truck_id = some rid1 →
        { s with reserved_truck_id := none, reserved_at := none }
          ∈ (massCancelOp site date [rid1, rid2] [] db).2.slots) := by
  intro site date db rid1 rid2 r1 hs hd h1 h2
  have hg : (site == 0 || date == "") = false := by simp [hs, hd]
  have hr1id : r1.id = rid1 := by simpa using List.find?_some h1
  have h2' : findRes (cancelDeleteRes rid1 (cancelClearSlot r1 db)) rid2 = none := by
    apply findRes_delete_none
    rw [findRes_cancelClearSlot]
    exact h2
  have hfold : [rid1, rid2].foldl massCancelResStep (db, [])
      = (cancelDeleteRes rid1 (cancelClearSlot r1 db),
         [⟨rid1, r1.site_id, r1.date, r1.slot_time, r1.driver_phone⟩]) := by
    rw [List.foldl_cons, massCancelResStep_some db [] rid1 r1 h1,
      List.foldl_cons, massCancelResStep_none _ _ rid2 h2', List.foldl_nil]
    rfl
  unfold massCancelOp
  simp only [hg, Bool.false_eq_true, if_false, hfold, List.foldl_nil]
  refine ⟨rfl, findRes_delete_self rid1 _, ?_⟩
  intro s hsm hsite hdate htime hptr
  show _ ∈ (db.slots.map (freeSlotFor r1))
  refine List.mem_map.mpr ⟨s, hsm, ?_⟩
  unfold freeSlotFor
  rw [if_pos (by simp [hsite, hdate, htime, hptr, hr1id])]

/-- Witness for the amended C8: `massCancel([1,2])` on `exDbC8` (which has
only reservation 1). -/
theorem C8_massCancel_amended_witness :
    ((1 : Nat) ≠ 0 ∧ ("2025-01-10" : String) ≠ "" ∧
      findRes exDbC8 1 = some { id := 1, site_id := 1, date := "2025-01-10", slot_time := "08:00", queue_code := "3333" } ∧
      findRes exDbC8 2 = none) ∧
    ((massCancelOp 1 "2025-01-10" [1, 2] [] exDbC8).1
        = .ok ⟨1, 0, [⟨1, 1, "2025-01-10", "08:00", none⟩], []⟩ ∧
      findRes (massCancelOp 1 "2025-01-10" [1, 2] [] exDbC8).2 1 = none) :=
  ⟨⟨by decide, by decide, by decide, by decide⟩,
   by
     have h := C8_massCancel_amended 1 "2025-01-10" exDbC8 1 2
       { id := 1, site_id := 1, date := "2025-01-10", slot_time := "08:00", queue_code := "3333" }
       (by decide) (by decide) (by decide) (by decide)
     exact ⟨h.1, h.2.1⟩⟩

/-! ## C9 — queue code stability -/

/-- Reservation-table edits that preserve id and queue code preserve the
id-indexed queue-code lookup. -/
theorem findRes_map_preserve (db : DB) (f : Reservation → Reservation)
    (hf : ∀ r, (f r).id = r.id ∧ (f r).queue_code = r.queue_code)
    (rid : Nat) (r : Reservation) (h : findRes db rid = some r) :
    ∃ r', (db.reservations.map f).find? (fun x => x.id == rid) = some r' ∧
      r'.queue_code = r.queue_code := by
  rw [List.find?_map]
  have he : ((fun (x : Reservation) => x.id == rid) ∘ f)
      = fun (x : Reservation) => x.id == rid := by
    funext x
    simp [Function.comp, (hf x).1]
  rw [he]
  unfold findRes at h
  rw [h]
  exact ⟨f r, rfl, (hf r).2⟩

theorem findRes_append (db : DB) (l2 : List Reservation) (rid : Nat)
    (r : Reservation) (h : findRes db rid = some r) :
    (db.reservations ++ l2).find? (fun x => x.id == rid) = some r := by
  rw [List.find?_append]
  unfold findRes at h
  rw [h]
  rfl

theorem applyDriverPatch_id_code (p : DriverPatch) (r : Reservation) :
    (applyDriverPatch p r).id = r.id ∧
    (applyDriverPatch p r).queue_code = r.queue_code := by
  unfold applyDriverPatch
  cases p.driver_name <;> cases p.license_plate <;> cases p.vendor_name <;>
    cases p.farm_or_ticket <;> cases p.est_amount <;> cases p.est_unit <;>
    exact ⟨rfl, rfl⟩

/-- The reservation table after a reassign: unchanged, or mapped through
the retiming update (which touches only `slot_time`). -/
theorem reassignOp_reservations (now rid2 : Nat) (toTime : String) (db : DB) :
    (reassignOp now rid2 toTime db).2.reservations = db.reservations ∨
    (reassignOp now rid2 toTime db).2.reservations
      = db.reservations.map (fun x =>
          if x.id == rid2 then { x with slot_time := toTime } else x) := by
  simp only [reassignOp]
  split
  · exact Or.inl rfl
  · split
    · exact Or.inl rfl
    · split
      · exact Or.inl (ensureSlot_reservations _ _ _ db)
      · split
        · exact Or.inl (ensureSlot_reservations _ _ _ db)
        · refine Or.inr ?_
          show (ensureSlot _ _ toTime db).reservations.map _ = _
          rw [ensureSlot_reservations]

/-- The reservation table after an admin update: unchanged, or mapped
through the detail overwrite (which touches neither id nor queue code). -/
theorem adminUpdateOp_reservations (rid2 : Nat) (d : Details) (db : DB) :
    (adminUpdateOp rid2 d db).2.reservations = db.reservations ∨
    ∃ f : Reservation → Reservation,
      (∀ r, (f r).id = r.id ∧ (f r).queue_code = r.queue_code) ∧
      (adminUpdateOp rid2 d db).2.reservations = db.reservations.map f := by
  simp only [adminUpdateOp]
  split
  · exact Or.inl rfl
  · split
    · exact Or.inl rfl
    · refine Or.inr ⟨_, ?_, rfl⟩
      intro x
      by_cases hx : (x.id == rid2) = true
      · rw [if_pos hx]
        exact ⟨rfl, rfl⟩
      · rw [if_neg hx]
        exact ⟨rfl, rfl⟩

/-- The reservation table after a probe upsert: unchanged, mapped through a
detail overwrite, or extended by a fresh reservation. -/
theorem probeUpsertOp_reservations (now rand : Nat) (site : Nat)
    (date time : String) (resvId : Option Nat) (d : Details) (db : DB) :
    (probeUpsertOp now rand site date time resvId d db).2.reservations
        = db.reservations ∨
    (∃ f : Reservation → Reservation,
      (∀ r, (f r).id = r.id ∧ (f r).queue_code = r.queue_code) ∧
      (probeUpsertOp now rand site date time resvId d db).2.reservations
        = db.reservations.map f) ∨
    (∃ resv, (probeUpsertOp now rand site date time resvId d db).2.reservations
        = db.reservations ++ [resv]) := by
  simp only [probeUpsertOp]
  split
  · exact Or.inl rfl
  · split
    · exact Or.inl rfl
    · split
      · split
        · exact Or.inl rfl
        · refine Or.inr (Or.inl ⟨_, ?_, rfl⟩)
          intro x
          by_cases hx : (x.id == resvId.getD 0) = true
          · rw [if_pos hx]
            exact ⟨rfl, rfl⟩
          · rw [if_neg hx]
            exact ⟨rfl, rfl⟩
      · split
        · exact Or.inl rfl
        · exact Or.inr (Or.inr ⟨_, rfl⟩)

/-- The reservation table after a driver self-service update: unchanged or
mapped through the patch (which never touches id or queue code). -/
theorem driverUpdateOp_reservations (rid2 : Nat) (phone probe : String)
    (p : DriverPatch) (db : DB) :
    (driverUpdateOp rid2 phone probe p db).2.reservations = db.reservations ∨
    ∃ f : Reservation → Reservation,
      (∀ r, (f r).id = r.id ∧ (f r).queue_code = r.queue_code) ∧
      (driverUpdateOp rid2 phone probe p db).2.reservations
        = db.reservations.map f := by
  simp only [driverUpdateOp]
  split
  · exact Or.inl rfl
  · split
    · exact Or.inl rfl
    · split
      · exact Or.inl rfl
      · split
        · exact Or.inl rfl
        · split
          · exact Or.inl rfl
          · split
            · exact Or.inl rfl
            · refine Or.inr ⟨_, ?_, rfl⟩
              intro x
              by_cases hx : (x.id == rid2) = true
              · rw [if_pos hx]
                exact applyDriverPatch_id_code p x
              · rw [if_neg hx]
                exact ⟨rfl, rfl⟩

/-- **C9.**  The queue code is assigned exactly once at creation and never
changed afterwards: the admin update, the probe upsert (both its edit and
its create branch), the driver self-service update and reassign all leave
every existing reservation's queue code equal to what it was — staff
matching by queue code keeps working after these operations. -/
theorem C9_queue_code_stable :
    (∀ (now rid2 : Nat) (toTime : String) (db : DB) (rid : Nat) (r : Reservation),
      findRes db rid = some r →
      ∃ r', findRes (reassignOp now rid2 toTime db).2 rid = some r' ∧
        r'.queue_code = r.queue_code) ∧
    (∀ (rid2 : Nat) (d : Details) (db : DB) (rid : Nat) (r : Reservation),
      findRes db rid = some r →
      ∃ r', findRes (adminUpdateOp rid2 d db).2 rid = some r' ∧
        r'.queue_code = r.queue_code) ∧
    (∀ (now rand : Nat) (site : Nat) (date time : String) (resvId : Option Nat)
       (d : Details) (db : DB) (rid : Nat) (r : Reservation),
      findRes db rid = some r →
      ∃ r', findRes (probeUpsertOp now rand site date time resvId d db).2 rid
          = some r' ∧ r'.queue_code = r.queue_code) ∧
    (∀ (rid2 : Nat) (phone probe : String) (p : DriverPatch) (db : DB)
       (rid : Nat) (r : Reservation),
      findRes db rid = some r →
      ∃ r', findRes (driverUpdateOp rid2 phone probe p db).2 rid = some r' ∧
        r'.queue_code = r.queue_code) := by
  refine ⟨?_, ?_, ?_, ?_⟩
  · intro now rid2 toTime db rid r h
    rcases reassignOp_reservations now rid2 toTime db with he | he
    · exact ⟨r, by unfold findRes; rw [he]; exact h, rfl⟩
    · have hf : ∀ x : Reservation,
          ((if x.id == rid2 then { x with slot_time := toTime } else x) : Reservation).id = x.id ∧
          ((if x.id == rid2 then { x with slot_time := toTime } else x) : Reservation).queue_code = x.queue_code := by
        intro x
        by_cases hx : (x.id == rid2) = true
        · rw [if_pos hx]
          exact ⟨rfl, rfl⟩
        · rw [if_neg hx]
          exact ⟨rfl, rfl⟩
      obtain ⟨r', h1, h2⟩ := findRes_map_preserve db _ hf rid r h
      exact ⟨r', by unfold findRes; rw [he]; exact h1, h2⟩
  · intro rid2 d db rid r h
    rcases adminUpdateOp_reservations rid2 d db with he | ⟨f, hf, he⟩
    · exact ⟨r, by unfold findRes; rw [he]; exact h, rfl⟩
    · obtain ⟨r', h1, h2⟩ := findRes_map_preserve db f hf rid r h
      exact ⟨r', by unfold findRes; rw [he]; exact h1, h2⟩
  · intro now rand site date time resvId d db rid r h
    rcases probeUpsertOp_reservations now rand site date time resvId d db
      with he | ⟨f, hf, he⟩ | ⟨resv, he⟩
    · exact ⟨r, by unfold findRes; rw [he]; exact h, rfl⟩
    · obtain ⟨r', h1, h2⟩ := findRes_map_preserve db f hf rid r h
      exact ⟨r', by unfold findRes; rw [he]; exact h1, h2⟩
    · exact ⟨r, by unfold findRes; rw [he]; exact findRes_append db [resv] rid r h, rfl⟩
  · intro rid2 phone probe p db rid r h
    rcases driverUpdateOp_reservations rid2 phone probe p db with he | ⟨f, hf, he⟩
    · exact ⟨r, by unfold findRes; rw [he]; exact h, rfl⟩
    · obtain ⟨r', h1, h2⟩ := findRes_map_preserve db f hf rid r h
      exact ⟨r', by unfold findRes; rw [he]; exact h1, h2⟩

/-- Example for the C9 witness. -/
def exDbC9 : DB :=
  { slots := [{ id := 1, site_id := 1, date := "2025-01-10", slot_time := "08:00", reserved_truck_id := some 1, reserved_at := some 0 },
              { id := 2, site_id := 1, date := "2025-01-10", slot_time := "08:30" }],
    reservations := [{ id := 1, site_id := 1, date := "2025-01-10", slot_time := "08:00", queue_code := "7777" }],
    nextSlotId := 3, nextResId := 2 }

/-- Witness for C9: after reassigning reservation 1 to 08:30, its queue
code is still 7777. -/
theorem C9_queue_code_stable_witness :
    findRes exDbC9 1 = some { id := 1, site_id := 1, date := "2025-01-10", slot_time := "08:00", queue_code := "7777" } ∧
    (∃ r', findRes (reassignOp 500 1 "08:30" exDbC9).2 1 = some r' ∧
      r'.queue_code = "7777") :=
  ⟨by decide,
   C9_queue_code_stable.1 500 1 "08:30" exDbC9 1
     { id := 1, site_id := 1, date := "2025-01-10", slot_time := "08:00", queue_code := "7777" }
     (by decide)⟩

/-! ## C10 — conditional frees leave other reservations' slots alone -/

theorem ensureSlot_mem_src (site : Nat) (date time : String) (db : DB) (x : Slot)
    (hx : x ∈ (ensureSlot site date time db).slots) :
    x ∈ db.slots ∨
    x = { id := db.nextSlotId, site_id := site, date := date, slot_time := time } := by
  unfold ensureSlot at hx
  split at hx
  · exact Or.inl hx
  · rcases List.mem_append.mp hx with h | h
    · exact Or.inl h
    · exact Or.inr (List.mem_singleton.mp h)

/-- The conditional free does not touch a slot held by a different
reservation. -/
theorem freeSlotFor_other (r : Reservation) (s : Slot) (j : Nat)
    (hres : s.reserved_truck_id = some j) (hne : j ≠ r.id) :
    freeSlotFor r s = s := by
  unfold freeSlotFor
  rw [if_neg ?_]
  intro hc
  simp only [Bool.and_eq_true, beq_iff_eq] at hc
  have := hc.2
  rw [hres] at this
  exact hne (Option.some_injective _ this)

/-- **C10.**  In cancel, in the freeing half of reassign, and in
mass-cancel, a slot's reservation pointer is cleared only by a conditional
update requiring the pointer to still equal the id of the reservation being
canceled or moved; therefore a slot currently occupied by a *different*
reservation (`reserved_truck_id = some j`, `j ≠ 0`, `j` not the id being
processed) passes through each of these operations completely unchanged.
(The reassign part additionally assumes distinct slot row ids bounded by
the autoincrement counter, which the schema guarantees.) -/
theorem C10_conditional_free :
    (∀ (rid : Nat) (db : DB) (s : Slot) (j : Nat),
      s ∈ db.slots → s.reserved_truck_id = some j → j ≠ 0 → j ≠ rid →
      s ∈ (cancelOp rid db).2.slots) ∧
    (∀ (now rid : Nat) (toTime : String) (db : DB) (s : Slot) (j : Nat),
      db.slots.Pairwise (fun a b => a.id ≠ b.id) →
      (∀ x ∈ db.slots, x.id < db.nextSlotId) →
      s ∈ db.slots → s.reserved_truck_id = some j → j ≠ 0 → j ≠ rid →
      s ∈ (reassignOp now rid toTime db).2.slots) ∧
    (∀ (site : Nat) (date : String) (rids : List Nat) (slot_times : List String)
       (db : DB) (s : Slot) (j : Nat),
      s ∈ db.slots → s.reserved_truck_id = some j → j ≠ 0 →
      (∀ rid ∈ rids, j ≠ rid) →
      s ∈ (massCancelOp site date rids slot_times db).2.slots) := by
  refine ⟨?_, ?_, ?_⟩
  · intro rid db s j hs hres h0 hne
    simp only [cancelOp]
    split
    · exact hs
    · split
      · exact hs
      · next r heq =>
        have hr : r.id = rid := by simpa using List.find?_some heq
        show s ∈ db.slots.map (freeSlotFor r)
        have hfree := freeSlotFor_other r s j hres (by omega)
        exact hfree ▸ List.mem_map_of_mem _ hs
  · intro now rid toTime db s j hpw hlt hs hres h0 hne
    simp only [reassignOp]
    split
    · exact hs
    · split
      · exact hs
      · next r heq =>
        have hr : r.id = rid := by simpa using List.find?_some heq
        split
        · exact ensureSlot_mem _ _ _ db s hs
        · next tgt heq2 =>
          split
          · exact ensureSlot_mem _ _ _ db s hs
          · next htr =>
            have hfree := freeSlotFor_other r s j hres (by omega)
            have hs1 : s ∈ (ensureSlot r.site_id r.date toTime db).slots :=
              ensureSlot_mem _ _ _ db s hs
            have hsid : s.id ≠ tgt.id := by
              have htgtmem : tgt ∈ (ensureSlot r.site_id r.date toTime db).slots :=
                List.mem_of_find?_eq_some heq2
              rcases ensureSlot_mem_src _ _ _ db tgt htgtmem with hold | hnew
              · have hsne : s ≠ tgt := by
                  intro hst
                  rw [Bool.not_eq_true] at htr
                  unfold truthyId at htr
                  rw [← hst, hres] at htr
                  simp only [bne_iff_ne, ne_eq, decide_eq_true_eq] at htr
                  exact h0 (by simpa using htr)
                have hsym : Symmetric (fun (a b : Slot) => a.id ≠ b.id) :=
                  fun _ _ h he => h he.symm
                exact List.Pairwise.forall hsym hpw hs hold hsne
              · have : tgt.id = db.nextSlotId := by rw [hnew]
                have := hlt s hs
                omega
            show s ∈ ((ensureSlot r.site_id r.date toTime db).slots.map
              (freeSlotFor r)).map _
            have h2 : (fun (x : Slot) =>
                if x.id == tgt.id then
                  { x with reserved_truck_id := some rid, reserved_at := some now }
                else x) s = s := by
              have hb : (s.id == tgt.id) = false := by simpa using hsid
              simp [hb]
            refine List.mem_map.mpr ⟨freeSlotFor r s, List.mem_map_of_mem _ hs1, ?_⟩
            rw [hfree]
            exact h2
  · intro site date rids slot_times db s j hs hres h0 hall
    simp only [massCancelOp]
    split
    · exact hs
    · have h1 : s ∈ (rids.foldl massCancelResStep (db, [])).1.slots := by
        refine foldl_invariant
          (fun (st : DB × List CanceledInfo) => s ∈ st.1.slots) _ rids (db, []) hs ?_
        intro st rid hrid hmem
        obtain ⟨db', acc⟩ := st
        unfold massCancelResStep
        simp only []
        cases heq : findRes db' rid with
        | none => exact hmem
        | some r =>
          have hr : r.id = rid := by simpa using List.find?_some heq
          simp only []
          show s ∈ db'.slots.map (freeSlotFor r)
          have hfree := freeSlotFor_other r s j hres
            (by have := hall rid hrid; omega)
          exact hfree ▸ List.mem_map_of_mem _ hmem
      show s ∈ (slot_times.foldl (massCancelTimeStep site date)
        ((rids.foldl massCancelResStep (db, [])).1, [])).1.slots
      refine foldl_invariant
        (fun (st : DB × List RemovedOpen) => s ∈ st.1.slots) _ slot_times _ h1 ?_
      intro st t htm hmem
      obtain ⟨db', acc⟩ := st
      unfold massCancelTimeStep delOpen
      simp only []
      show s ∈ db'.slots.filter _
      refine List.mem_filter.mpr ⟨hmem, ?_⟩
      have : (s.reserved_truck_id == none) = false := by
        rw [hres]; rfl
      simp [this]

/-- Example for the C10 witness: two reservations on their own slots. -/
def exDbC10 : DB :=
  { slots := [{ id := 1, site_id := 1, date := "2025-01-10", slot_time := "08:00", reserved_truck_id := some 1, reserved_at := some 0 },
              { id := 2, site_id := 1, date := "2025-01-10", slot_time := "08:30", reserved_truck_id := some 2, reserved_at := some 0 }],
    reservations := [{ id := 1, site_id := 1, date := "2025-01-10", slot_time := "08:00", queue_code := "1212" },
                     { id := 2, site_id := 1, date := "2025-01-10", slot_time := "08:30", queue_code := "3434" }],
    nextSlotId := 3, nextResId := 3 }

/-- Witness for C10: canceling reservation 1 leaves reservation 2's slot
row untouched. -/
theorem C10_conditional_free_witness :
    (({ id := 2, site_id := 1, date := "2025-01-10", slot_time := "08:30", reserved_truck_id := some 2, reserved_at := some 0 } : Slot) ∈ exDbC10.slots ∧
      (2 : Nat) ≠ 0 ∧ (2 : Nat) ≠ 1) ∧
    ({ id := 2, site_id := 1, date := "2025-01-10", slot_time := "08:30", reserved_truck_id := some 2, reserved_at := some 0 } : Slot)
      ∈ (cancelOp 1 exDbC10).2.slots :=
  ⟨⟨by decide, by decide, by decide⟩,
   C10_conditional_free.1 1 exDbC10
     { id := 2, site_id := 1, date := "2025-01-10", slot_time := "08:30", reserved_truck_id := some 2, reserved_at := some 0 }
     2 (by decide) (by decide) (by decide) (by decide)⟩

end CVL
